import Mathlib

/-!
Verification of the traceability and gate validation engine of the
`_blueprint_server` package (files `validate_traceability.py`,
`artifact_index.py` and the gate portion of `agent_tools.py`).

Python strings are embedded as `List Char` (the type `Str` below);
Python dict-backed metadata is embedded as a record of optional values;
the artifact index (a Python dict keyed by artifact id) is embedded as
an association list with last-wins insertion that keeps the original
position of an updated key, matching `dict.__setitem__`.
-/

/-- Python strings are embedded as lists of characters. -/
abbrev Str := List Char

/-- Shorthand turning a Lean string literal into the `Str` embedding. -/
def S (s : String) : Str := s.data

/-- `p` is a leading substring of `s` (Python `str.startswith`). -/
def startsW : Str → Str → Bool
  | [], _ => true
  | _ :: _, [] => false
  | p :: ps, c :: cs => p == c && startsW ps cs

/-- Python `sep.join(xs)`. -/
def joinSep (sep : Str) : List Str → Str
  | [] => []
  | [x] => x
  | x :: xs => x ++ sep ++ joinSep sep xs

/-- Characters Python `str.strip()` removes: the Unicode whitespace set of
`str.isspace()` — the controls 09–0D and 1C–1F, space, NEL 85, NBSP A0,
Ogham space 1680, the range 2000–200A, line/paragraph separators 2028/2029,
NNBSP 202F, MMSP 205F and ideographic space 3000. -/
def isWS (c : Char) : Bool :=
  (0x09 ≤ c.toNat && c.toNat ≤ 0x0d) || c == ' ' ||
  (0x1c ≤ c.toNat && c.toNat ≤ 0x1f) ||
  c.toNat == 0x85 || c.toNat == 0xa0 || c.toNat == 0x1680 ||
  (0x2000 ≤ c.toNat && c.toNat ≤ 0x200a) ||
  c.toNat == 0x2028 || c.toNat == 0x2029 || c.toNat == 0x202f ||
  c.toNat == 0x205f || c.toNat == 0x3000

/-- Python `s.strip()`: whitespace trim on both ends. -/
def pyStripWS (s : Str) : Str :=
  ((s.dropWhile isWS).reverse.dropWhile isWS).reverse

/-- The characters Python `s.strip("[]")` removes. -/
def isBrChar (c : Char) : Bool := c == '[' || c == ']'

/-- Python `s.strip("[]")`: removes leading and trailing bracket characters. -/
def stripSquare (s : Str) : Str :=
  ((s.dropWhile isBrChar).reverse.dropWhile isBrChar).reverse

/-- Python `s.split(",")`: splits at every comma, keeping empty pieces. -/
def splitComma : Str → List Str
  | [] => [[]]
  | c :: cs =>
    if c = ',' then [] :: splitComma cs
    else
      match splitComma cs with
      | r :: rs => (c :: r) :: rs
      | [] => [[c]]

/-- A metadata value as the engine observes it: a string, a boolean, or a
list of strings (the shapes the frontmatter reader produces for the fields
this engine touches). -/
inductive Val where
  | str (s : Str)
  | bool (b : Bool)
  | list (xs : List Str)
deriving DecidableEq

/-- Python truthiness of a metadata value. -/
def truthy : Val → Bool
  | .str s => !s.isEmpty
  | .bool b => b
  | .list xs => !xs.isEmpty

/-- Python truthiness of `meta.get(k)` (missing key is `None`, falsy). -/
def truthyO : Option Val → Bool
  | none => false
  | some v => truthy v

/-- Python `str(v)` on a metadata value. -/
def pyStr : Val → Str
  | .str s => s
  | .bool true => S "True"
  | .bool false => S "False"
  | .list xs => S "[" ++ joinSep (S ", ") (xs.map (fun x => S "'" ++ x ++ S "'")) ++ S "]"

/-- Python `str(x)` where `x` may be `None` (prints as `None`). -/
def pyStrOpt : Option Val → Str
  | none => S "None"
  | some v => pyStr v

/-- Python `str(meta.get(k, d))` with a string default `d`. -/
def pyStrD (o : Option Val) (d : Str) : Str :=
  match o with
  | none => d
  | some v => pyStr v

/-- Python `meta.get(k) == t` for a string literal `t`. -/
def valIsStr (o : Option Val) (t : Str) : Bool :=
  match o with
  | some (.str s) => s == t
  | _ => false

/-- Artifact kinds, derived from the ID prefix (`artifact_index.ID_PREFIXES`). -/
inductive AType where
  | Goal | Feature | Research | UseCase | Task
deriving DecidableEq

/-- `_type_from_id`: the fixed prefix table, probed in declaration order. -/
def typeFromId (id : Str) : Option AType :=
  if startsW (S "GL-") id then some .Goal
  else if startsW (S "FT-") id then some .Feature
  else if startsW (S "RS-") id then some .Research
  else if startsW (S "UC-") id then some .UseCase
  else if startsW (S "TSK-") id then some .Task
  else none

/-- A file location: directory part and stem; `str(path)` is
`dir ++ "/" ++ stem ++ ".md"` and `path.stem` is the stem. -/
structure FPath where
  dir : Str
  stem : Str
deriving DecidableEq

/-- Python `str(path)` for a markdown file path. -/
def pathStr (p : FPath) : Str := p.dir ++ S "/" ++ p.stem ++ S ".md"

/-- The frontmatter fields the engine ever probes, each optional
(a missing field is a missing dict key). -/
structure Meta where
  id : Option Val := none
  title : Option Val := none
  status : Option Val := none
  parent_goal : Option Val := none
  parent_feat : Option Val := none
  parent_uc : Option Val := none
  origin : Option Val := none
  dependencies : Option Val := none
  hypothesis : Option Val := none
  verdict : Option Val := none
  research_required : Option Val := none
deriving DecidableEq

/-- Python `meta.get(name)` for the field names the engine probes by string. -/
def metaGet (m : Meta) (name : Str) : Option Val :=
  if name = S "id" then m.id
  else if name = S "title" then m.title
  else if name = S "status" then m.status
  else if name = S "parent_goal" then m.parent_goal
  else if name = S "parent_feat" then m.parent_feat
  else if name = S "parent_uc" then m.parent_uc
  else if name = S "origin" then m.origin
  else if name = S "dependencies" then m.dependencies
  else if name = S "hypothesis" then m.hypothesis
  else if name = S "verdict" then m.verdict
  else if name = S "research_required" then m.research_required
  else none

/-- One index entry: `{"type": ..., "path": ..., "meta": ..., "body_snippet": ...}`. -/
structure Entry where
  type : AType
  path : FPath
  meta : Meta
  body_snippet : Str
deriving DecidableEq

/-- The artifact index: a dict keyed by artifact id, embedded as an
association list in dict insertion order. -/
abbrev Snapshot := List (Str × Entry)

/-- Python `idx.get(k)` / `idx[k]`. -/
def lookup : Snapshot → Str → Option Entry
  | [], _ => none
  | (k', e) :: rest, k => if k' = k then some e else lookup rest k

/-- Python `k in idx`. -/
def hasKey (idx : Snapshot) (k : Str) : Bool := (lookup idx k).isSome

/-- `VALID_STATUSES` of `validate_traceability.py`. -/
def VALID_STATUSES : List Str :=
  [S "DRAFT", S "REVIEW", S "APPROVED", S "NEEDS_FIX",
   S "BLOCKED", S "DONE", S "ARCHIVED", S "REJECTED"]

/-- `FORBIDDEN_TRANSITIONS.get(cur)`: the deny-list table. The `DONE` row is
`VALID_STATUSES - {"ARCHIVED"}`, embedded as a filter over the status list. -/
def FORBIDDEN_TRANSITIONS (cur : Str) : Option (List Str) :=
  if cur = S "APPROVED" then some [S "DRAFT", S "REVIEW"]
  else if cur = S "DONE" then some (VALID_STATUSES.filter (fun s => ¬ s = S "ARCHIVED"))
  else none

/-- `check_transition(artifact_id, current_status, new_status)`:
returns an error message if the transition is forbidden, else `none`. -/
def check_transition (artifact_id cur new : Str) : Option Str :=
  match FORBIDDEN_TRANSITIONS cur with
  | some forbidden =>
    if new ∈ forbidden then
      if cur = S "DONE" then
        some (S "Forbidden transition: '" ++ artifact_id ++
          S "' is DONE (terminal state). Only ARCHIVED is allowed. Create a new artifact for a new version.")
      else
        some (S "Forbidden transition: '" ++ artifact_id ++ S "' cannot move from " ++ cur ++
          S " → " ++ new ++ S ". Use NEEDS_FIX first, then fix and resubmit to REVIEW.")
    else none
  | none => none

/-- The `error_type` tags of `ValidationError` (the source stores them as
the seven fixed strings listed in its comment). -/
inductive ErrType where
  | ORPHAN | MISSING_FIELD | BLOCKED_BY_PARENT | GATE_VIOLATION
  | DUPLICATE_ID | FORBIDDEN_TRANSITION | SOFT_WARNING
deriving DecidableEq

/-- The `severity` field ("ERROR" or "WARNING"). -/
inductive Severity where
  | ERROR | WARNING
deriving DecidableEq

/-- The `ValidationError` dataclass. -/
structure VErr where
  artifact_id : Str
  artifact_type : AType
  path : Str
  error_type : ErrType
  detail : Str
  severity : Severity := .ERROR
deriving DecidableEq

/-- `REQUIRED_FIELDS`: required frontmatter fields per artifact type. -/
def REQUIRED_FIELDS : AType → List Str
  | .Goal => [S "id", S "title", S "status"]
  | .Feature => [S "id", S "title", S "status", S "parent_goal"]
  | .Research => [S "id", S "hypothesis", S "verdict", S "parent_goal"]
  | .UseCase => [S "id", S "title", S "status", S "parent_feat", S "dependencies"]
  | .Task => [S "id", S "title", S "status", S "parent_uc"]

/-- `PARENT_FIELDS`: frontmatter fields treated as parent references. -/
def PARENT_FIELDS : List Str :=
  [S "parent_goal", S "parent_feat", S "parent_uc", S "origin"]

/-- The dependency normalization both G8 and the G9 graph build apply:
a missing field is the empty list, a string value is parsed as
`[d.strip() for d in deps.strip("[]").split(",") if d.strip()]`, a list
value is used as is.  (A boolean-valued field would crash the Python
`for` loop; snapshots are constrained to `SnapshotWF` below to rule
that shape out.) -/
def normalizeDeps : Option Val → List Str
  | none => []
  | some (.str s) => ((splitComma (stripSquare s)).map pyStripWS).filter (fun d => !d.isEmpty)
  | some (.list xs) => xs
  | some (.bool _) => []

/-- Whether a node's `dependencies` field avoids the boolean shape (the
only metadata shape on which the source validator would raise). -/
def noBoolDeps (x : Str × Entry) : Bool :=
  match x.2.meta.dependencies with
  | some (.bool _) => false
  | _ => true

/-- A snapshot is well formed when no `dependencies` field holds a boolean. -/
def SnapshotWF (ns : Snapshot) : Prop := ∀ x ∈ ns, noBoolDeps x = true

instance (ns : Snapshot) : Decidable (SnapshotWF ns) :=
  List.decidableBAll (fun x => noBoolDeps x = true) ns

/-- G4: flag an entry whose file stem does not match its declared id. -/
def dupCheck (x : Str × Entry) : List VErr :=
  if x.2.path.stem = x.1 then []
  else
    [{ artifact_id := x.1, artifact_type := x.2.type, path := pathStr x.2.path,
       error_type := .DUPLICATE_ID,
       detail := S "File name '" ++ x.2.path.stem ++
         S ".md' does not match declared id '" ++ x.1 ++
         S "'. Rename file or fix the id field." }]

/-- G5: required-field check for one node. -/
def missingFieldErrs (x : Str × Entry) : List VErr :=
  (REQUIRED_FIELDS x.2.type).filterMap fun rf =>
    if truthyO (metaGet x.2.meta rf) then none
    else some
      { artifact_id := x.1, artifact_type := x.2.type, path := pathStr x.2.path,
        error_type := .MISSING_FIELD,
        detail := S "Required field '" ++ rf ++ S "' is missing or empty." }

/-- G3: orphan check over the four parent-reference fields of one node. -/
def orphanParentErrs (idx : Snapshot) (x : Str × Entry) : List VErr :=
  PARENT_FIELDS.filterMap fun pf =>
    match metaGet x.2.meta pf with
    | none => none
    | some v =>
      if truthy v ∧ ¬ hasKey idx (pyStr v) then
        some
          { artifact_id := x.1, artifact_type := x.2.type, path := pathStr x.2.path,
            error_type := .ORPHAN,
            detail := S "Parent reference '" ++ pf ++ S ": " ++ pyStr v ++
              S "' does not exist in the index." }
      else none

/-- G8: orphan-dependency and DONE-gate check for one node. -/
def depErrs (idx : Snapshot) (x : Str × Entry) : List VErr :=
  (normalizeDeps x.2.meta.dependencies).filterMap fun d =>
    match lookup idx d with
    | none =>
      some
        { artifact_id := x.1, artifact_type := x.2.type, path := pathStr x.2.path,
          error_type := .ORPHAN,
          detail := S "Dependency '" ++ d ++ S "' does not exist in the index." }
    | some de =>
      if valIsStr x.2.meta.status (S "DONE") then
        if valIsStr de.meta.status (S "DONE") then none
        else some
          { artifact_id := x.1, artifact_type := x.2.type, path := pathStr x.2.path,
            error_type := .GATE_VIOLATION,
            detail := S "Cannot mark '" ++ x.1 ++ S "' as DONE while dependency '" ++
              d ++ S "' is '" ++ pyStrOpt de.meta.status ++ S "'." }
      else none

/-- G1: the Task gate — a Task whose `parent_uc` resolves to a node whose
status is not APPROVED is blocked.  (An unresolved `parent_uc` emits no
error here: the `if parent` guard skips it.) -/
def taskGateErrs (idx : Snapshot) (x : Str × Entry) : List VErr :=
  if x.2.type = .Task then
    let parent_uc_id := pyStrD x.2.meta.parent_uc []
    match lookup idx parent_uc_id with
    | none => []
    | some p =>
      if valIsStr p.meta.status (S "APPROVED") then []
      else
        [{ artifact_id := x.1, artifact_type := x.2.type, path := pathStr x.2.path,
           error_type := .BLOCKED_BY_PARENT,
           detail := S "Task created while parent UseCase '" ++ parent_uc_id ++
             S "' has status '" ++ pyStrOpt p.meta.status ++
             S "' (must be APPROVED)." }]
  else []

/-- `research_required in (True, "true", "True")`. -/
def researchRequired (o : Option Val) : Bool :=
  match o with
  | some (.bool true) => true
  | some (.str s) => s == S "true" || s == S "True"
  | _ => false

/-- `e["meta"].get("verdict") in ("SUCCESS", "PENDING")`. -/
def verdictOk (o : Option Val) : Bool :=
  match o with
  | some (.str s) => s == S "SUCCESS" || s == S "PENDING"
  | _ => false

/-- G2: the analysis gate for a UseCase whose parent Feature requires research. -/
def ucGateErrs (idx : Snapshot) (x : Str × Entry) : List VErr :=
  if x.2.type = .UseCase then
    let parent_feat_id := pyStrD x.2.meta.parent_feat []
    match lookup idx parent_feat_id with
    | none => []
    | some feat =>
      if researchRequired feat.meta.research_required then
        let feat_goal := pyStrD feat.meta.parent_goal []
        let linked_rs := idx.filter fun y =>
          y.2.type == AType.Research &&
          (pyStrD y.2.meta.parent_goal [] == feat_goal) &&
          verdictOk y.2.meta.verdict
        if linked_rs.isEmpty then
          [{ artifact_id := x.1, artifact_type := x.2.type, path := pathStr x.2.path,
             error_type := .GATE_VIOLATION,
             detail := S "Parent Feature '" ++ parent_feat_id ++
               S "' has research_required: true but no Research Spike with verdict SUCCESS or PENDING was found for goal '" ++
               feat_goal ++ S "'. Run P2 Research protocol first." }]
        else []
      else []
  else []

/-- All per-node checks of the main loop, in source order (G5, G3, G8, G1, G2). -/
def nodeErrs (idx : Snapshot) (x : Str × Entry) : List VErr :=
  missingFieldErrs x ++ orphanParentErrs idx x ++ depErrs idx x ++
    taskGateErrs idx x ++ ucGateErrs idx x

/-- `set.add` on the embedded set (no-op when present). -/
def insertS (k : Str) (l : List Str) : List Str := if k ∈ l then l else k :: l

/-- `graph.get(node, [])`. -/
def lookupD (graph : List (Str × List Str)) (k : Str) : List Str :=
  match graph with
  | [] => []
  | (k', v) :: rest => if k' = k then v else lookupD rest k

/-- The body of `find_cycle` after the two `add`s: walks the remaining
neighbor list of `node`, recursing depth-first; fuel only bounds the
recursion and is chosen large enough never to run out.  Returns the cycle
(in the source's reversed order) and the final visited and stack sets. -/
def fcAux (graph : List (Str × List Str)) :
    Nat → List Str → List Str → List Str → Str →
    Option (List Str) × List Str × List Str
  | 0, _, visited, stack, _ => (none, visited, stack)
  | _ + 1, [], visited, stack, node => (none, visited, stack.erase node)
  | fuel + 1, nb :: nbs, visited, stack, node =>
    if nb ∈ visited then
      if nb ∈ stack then (some [nb, node], visited, stack)
      else fcAux graph fuel nbs visited stack node
    else
      match fcAux graph fuel (lookupD graph nb) (insertS nb visited) (insertS nb stack) nb with
      | (some cyc, v', s') => (some (cyc ++ [node]), v', s')
      | (none, v', s') => fcAux graph fuel nbs v' s' node

/-- `find_cycle(node_id, visited, stack)`: adds the node to both sets and
scans its neighbors. -/
def find_cycle (graph : List (Str × List Str)) (fuel : Nat) (node : Str)
    (visited stack : List Str) : Option (List Str) × List Str × List Str :=
  fcAux graph fuel (lookupD graph node) (insertS node visited) (insertS node stack) node

/-- The warning block labelled W3 in the source.  Its body is indented into
the G9 loop, so `meta`, `artifact_id`, `atype` and `path` are the stale
loop variables of the two earlier loops over the index: all four refer to
the LAST entry of the index.  `fb lid` embeds the feedback-file existence
check `(BLUEPRINT_ROOT / "inbound" / "User_Feedback" / f"FB-{id}.md").exists()`. -/
def w3Errs (fb : Str → Bool) : Option (Str × Entry) → List VErr
  | none => []
  | some (lid, le) =>
    let status := pyStrD le.meta.status []
    if (status = S "NEEDS_FIX" ∨ status = S "REJECTED") ∧ fb lid = false then
      [{ artifact_id := lid, artifact_type := le.type, path := pathStr le.path,
         error_type := .SOFT_WARNING,
         detail := S "Artifact has status '" ++ status ++
           S "' but no feedback file 'FB-" ++ lid ++
           S ".md' exists. Agent cannot determine fix reason.",
         severity := .WARNING }]
    else []

/-- The G9 loop with the mis-indented W3 block: for each id, if unvisited run
`find_cycle`; on the first cycle append one GATE_VIOLATION and break
(skipping the W3 block of that iteration and all later iterations);
otherwise run the W3 block and continue with the updated visited set. -/
def g9Loop (ns : Snapshot) (graph : List (Str × List Str)) (fuel : Nat)
    (fb : Str → Bool) (lastE : Option (Str × Entry)) :
    List Str → List Str → List VErr
  | [], _ => []
  | k :: ks, visited =>
    if k ∈ visited then w3Errs fb lastE ++ g9Loop ns graph fuel fb lastE ks visited
    else
      match find_cycle graph fuel k visited [] with
      | (some cyc, _, _) =>
        match lookup ns k with
        | some e =>
          [{ artifact_id := k, artifact_type := e.type, path := pathStr e.path,
             error_type := .GATE_VIOLATION,
             detail := S "Circular dependency detected: " ++
               joinSep (S " -> ") cyc.reverse }]
        | none => []
      | (none, visited', _) =>
        w3Errs fb lastE ++ g9Loop ns graph fuel fb lastE ks visited'

/-- The dependency graph G9 builds: each id mapped to its normalized
dependency list. -/
def depGraph (ns : Snapshot) : List (Str × List Str) :=
  ns.map fun x => (x.1, normalizeDeps x.2.meta.dependencies)

/-- A recursion budget for `find_cycle` that the DFS can never exhaust:
every step either consumes a neighbor edge or first-visits a node, and the
square comfortably dominates the total. -/
def cycleFuel (ns : Snapshot) : Nat :=
  (ns.length + ((depGraph ns).map (fun g => g.2.length)).sum + 1) *
    (ns.length + ((depGraph ns).map (fun g => g.2.length)).sum + 1)

/-- The G9 section plus the mis-scoped W3 block of `validate_traceability`. -/
def g9w3 (ns : Snapshot) (fb : Str → Bool) : List VErr :=
  g9Loop ns (depGraph ns) (cycleFuel ns) fb ns.getLast? (ns.map (·.1)) []

/-- `validate_traceability(index)`: the G4 loop over all entries, then the
main per-node loop, then the G9 loop (with the W3 block inside it).
`fb id` tells whether the feedback file `FB-{id}.md` exists. -/
def validate (ns : Snapshot) (fb : Str → Bool) : List VErr :=
  (ns.map dupCheck).flatten ++ (ns.map (nodeErrs ns)).flatten ++ g9w3 ns fb

/-- `index[k] = v` on a Python dict: updates the existing key in place
(keeping its position) or appends a new key at the end. -/
def dictInsert (k : Str) (v : Entry) : Snapshot → Snapshot
  | [] => [(k, v)]
  | (k', v') :: rest =>
    if k' = k then (k, v) :: rest else (k', v') :: dictInsert k v rest

/-- A markdown source file as the index builder sees it: its path, its
parsed frontmatter, and its body text. -/
structure SrcFile where
  path : FPath
  meta : Meta
  body : Str

/-- One step of `build_index`: skip a document whose frontmatter has no
truthy `id` or whose id has no recognized prefix; otherwise insert it
under `str(id)`. -/
def indexFile (idx : Snapshot) (f : SrcFile) : Snapshot :=
  match f.meta.id with
  | none => idx
  | some v =>
    if truthy v then
      match typeFromId (pyStr v) with
      | none => idx
      | some t =>
        dictInsert (pyStr v)
          { type := t, path := f.path, meta := f.meta, body_snippet := f.body.take 200 }
          idx
    else idx

/-- `build_index()`: scan the given files (in `rglob` order) into a dict
keyed by artifact id. -/
def build_index (files : List SrcFile) : Snapshot :=
  files.foldl indexFile []

/-- The first truthy parent field of a node, probed in the fixed priority
order `parent_uc`, `parent_feat`, `parent_goal`, `origin` (`get_trace_path`). -/
def firstParent (m : Meta) : Option Str :=
  if truthyO m.parent_uc then some (pyStrD m.parent_uc [])
  else if truthyO m.parent_feat then some (pyStrD m.parent_feat [])
  else if truthyO m.parent_goal then some (pyStrD m.parent_goal [])
  else if truthyO m.origin then some (pyStrD m.origin [])
  else none

/-- The loop of `get_trace_path`, with an explicit fuel bound: while the
current id is truthy and unvisited, mark it visited, stop if it does not
resolve, otherwise append the node and move to its first parent field.
The pair keeps the id under which each node was found. -/
def traceAux (idx : Snapshot) : Nat → Option Str → List Str → List (Str × Entry)
  | 0, _, _ => []
  | _ + 1, none, _ => []
  | fuel + 1, some cur, visited =>
    if cur = [] then []
    else if cur ∈ visited then []
    else
      match lookup idx cur with
      | none => []
      | some e => (cur, e) :: traceAux idx fuel (firstParent e.meta) (cur :: visited)

/-- `get_trace_path(artifact_id, index)`: the chain of nodes from the
artifact up toward its root, leaf first (the source returns the node
dicts; `traceAux` additionally records each node's id). -/
def get_trace_path (idx : Snapshot) (artifact_id : Str) : List Entry :=
  (traceAux idx (idx.length + 1) (some artifact_id) []).map Prod.snd

/-- `VALID_TYPES` of `agent_tools.py` (the keys of `ARTIFACT_WRITE_DIRS`). -/
def AGENT_VALID_TYPES : List Str :=
  [S "Goal", S "Feature", S "Research", S "UseCase", S "Task"]

/-- The Task-specific part of the creation gate in `_create_artifact`
(lines G1): resolve `metadata.get("parent_uc", parent_id or "")` and
require the parent UseCase to exist with status APPROVED. -/
def create_task_gate (atype : Str) (parent_id : Option Str) (metadata : Meta)
    (idx : Snapshot) : Option Str :=
  if atype = S "Task" then
    let dflt := match parent_id with | some p => p | none => []
    let uc_id := match metadata.parent_uc with | some v => pyStr v | none => dflt
    match lookup idx uc_id with
    | none => some (S "Task requires a valid parent_uc. '" ++ uc_id ++ S "' not found.")
    | some parent =>
      if valIsStr parent.meta.status (S "APPROVED") then none
      else
        some (S "Cannot create Task: parent UseCase '" ++ uc_id ++
          S "' has status '" ++ pyStrOpt parent.meta.status ++ S "'. Must be APPROVED.")
  else none

/-- The gate segment of `_create_artifact` (everything before any write):
unknown type, unresolved `parent_id`, then the Task gate.  `parent_id`
is the already-normalized `args.get("parent_id") or None`, so `none`
covers both an absent and a falsy argument. -/
def create_artifact_gate (atype : Str) (parent_id : Option Str) (metadata : Meta)
    (idx : Snapshot) : Option Str :=
  if atype ∈ AGENT_VALID_TYPES then
    match parent_id with
    | some p =>
      if hasKey idx p then create_task_gate atype parent_id metadata idx
      else some (S "Parent '" ++ p ++ S "' not found. Create the parent first.")
    | none => create_task_gate atype parent_id metadata idx
  else
    some (S "Unknown artifact type '" ++ atype ++
      S "'. Valid: Feature, Goal, Research, Task, UseCase")

/-- Classifier: a duplicate-id structural error. -/
def isDupErr (e : VErr) : Bool := e.error_type == ErrType.DUPLICATE_ID

/-- Classifier: the cycle-detection GATE_VIOLATION (its message begins with
the fixed circular-dependency text). -/
def isCycleErr (e : VErr) : Bool :=
  e.error_type == ErrType.GATE_VIOLATION &&
    startsW (S "Circular dependency detected: ") e.detail

/-- Classifier: the DONE-gate GATE_VIOLATION attributed to `aid`. -/
def isDoneGateFor (aid : Str) (e : VErr) : Bool :=
  e.error_type == ErrType.GATE_VIOLATION &&
    startsW (S "Cannot mark '") e.detail && e.artifact_id == aid

/-- Classifier: a BLOCKED_BY_PARENT error attributed to `aid`. -/
def isBlockedFor (aid : Str) (e : VErr) : Bool :=
  e.error_type == ErrType.BLOCKED_BY_PARENT && e.artifact_id == aid

/-- Classifier: a SOFT_WARNING. -/
def isSoftW (e : VErr) : Bool := e.error_type == ErrType.SOFT_WARNING

/-- A one-entry snapshot with a UseCase in REVIEW (used by the C6 witness). -/
def c6entry : Entry :=
  { type := .UseCase, path := { dir := S "dev_docs/logic", stem := S "UC-100" },
    meta := { id := some (.str (S "UC-100")), status := some (.str (S "REVIEW")) },
    body_snippet := [] }

instance : Inhabited Meta := ⟨{}⟩

instance : Inhabited Entry :=
  ⟨{ type := .Goal, path := { dir := [], stem := [] }, meta := {}, body_snippet := [] }⟩

/-- The invariant C10 asserts of every index entry. -/
def goodPair (x : Str × Entry) : Prop :=
  ∃ v, x.2.meta.id = some v ∧ truthy v = true ∧ x.1 = pyStr v ∧
    typeFromId x.1 = some x.2.type

/-- A markdown file with no id in its frontmatter (C10 witness). -/
def c10file : SrcFile :=
  { path := { dir := S "notes", stem := S "README" }, meta := {}, body := S "no id here" }

/-- A markdown file declaring id UC-001 (first copy, C5 counterexample). -/
def c5file1 : SrcFile :=
  { path := { dir := S "dev_docs/logic", stem := S "UC-001" },
    meta := { id := some (.str (S "UC-001")), title := some (.str (S "First")),
              status := some (.str (S "DRAFT")),
              parent_feat := some (.str (S "FT-001")),
              dependencies := some (.list []) },
    body := S "first copy" }

/-- A second, distinct file declaring the same id UC-001. -/
def c5file2 : SrcFile :=
  { path := { dir := S "dev_docs/logic/archive", stem := S "UC-001" },
    meta := { id := some (.str (S "UC-001")), title := some (.str (S "Second")),
              status := some (.str (S "DRAFT")),
              parent_feat := some (.str (S "FT-001")),
              dependencies := some (.list []) },
    body := S "second copy" }

/-- A Task in NEEDS_FIX with no feedback file (C7 failing input). -/
def c7e1 : Entry :=
  { type := .Task, path := { dir := S "execution/backlog", stem := S "TSK-001" },
    meta := { id := some (.str (S "TSK-001")), title := some (.str (S "Fix parser crash")),
              status := some (.str (S "NEEDS_FIX")) },
    body_snippet := [] }

/-- A Task in DRAFT (C7 failing input). -/
def c7e2 : Entry :=
  { type := .Task, path := { dir := S "execution/backlog", stem := S "TSK-002" },
    meta := { id := some (.str (S "TSK-002")), title := some (.str (S "Write docs")),
              status := some (.str (S "DRAFT")) },
    body_snippet := [] }

/-- The number of DONE-gate violations the claim predicts for one node:
zero unless its status is DONE, else one per dependency entry that
resolves to a node whose status is not DONE. -/
def doneViolations (idx : Snapshot) (x : Str × Entry) : Nat :=
  if valIsStr x.2.meta.status (S "DONE") then
    (normalizeDeps x.2.meta.dependencies).countP fun d =>
      match lookup idx d with
      | some de => !(valIsStr de.meta.status (S "DONE"))
      | none => false
  else 0

/-- A UseCase marked DONE depending on a node still in REVIEW (C3 witness). -/
def c3e1 : Entry :=
  { type := .UseCase, path := { dir := S "dev_docs/logic", stem := S "UC-001" },
    meta := { id := some (.str (S "UC-001")), title := some (.str (S "Checkout")),
              status := some (.str (S "DONE")),
              dependencies := some (.list [S "UC-002"]) },
    body_snippet := [] }

/-- The dependency of `c3e1`, still in REVIEW. -/
def c3e2 : Entry :=
  { type := .UseCase, path := { dir := S "dev_docs/logic", stem := S "UC-002" },
    meta := { id := some (.str (S "UC-002")), title := some (.str (S "Payment")),
              status := some (.str (S "REVIEW")),
              dependencies := some (.list []) },
    body_snippet := [] }

/-- The number of BLOCKED_BY_PARENT errors the code emits for one node:
one exactly when the node is a Task whose `parent_uc` field resolves in the
snapshot to a node whose status is not the string APPROVED; in particular
zero when the parent does not resolve at all. -/
def blockedPredicted (idx : Snapshot) (x : Str × Entry) : Nat :=
  if x.2.type = .Task then
    match lookup idx (pyStrD x.2.meta.parent_uc []) with
    | some p => if valIsStr p.meta.status (S "APPROVED") then 0 else 1
    | none => 0
  else 0

/-- A Task whose `parent_uc` does not resolve (C4 counterexample input). -/
def c4task : Entry :=
  { type := .Task, path := { dir := S "execution/backlog", stem := S "TSK-100" },
    meta := { id := some (.str (S "TSK-100")), title := some (.str (S "Orphan task")),
              status := some (.str (S "DRAFT")),
              parent_uc := some (.str (S "UC-404")) },
    body_snippet := [] }

/-- The ids of the index not yet visited: the termination measure of the
`get_trace_path` loop. -/
def remaining (idx : Snapshot) (visited : List Str) : Nat :=
  ((idx.map Prod.fst).filter (fun k => decide (¬ k ∈ visited))).length

/-- A Task pointing at its UseCase parent (C8 witness). -/
def c8task : Entry :=
  { type := .Task, path := { dir := S "execution/backlog", stem := S "TSK-001" },
    meta := { id := some (.str (S "TSK-001")), title := some (.str (S "Build")),
              status := some (.str (S "DRAFT")),
              parent_uc := some (.str (S "UC-001")) },
    body_snippet := [] }

/-- The parent UseCase of `c8task`, itself without parents. -/
def c8uc : Entry :=
  { type := .UseCase, path := { dir := S "dev_docs/logic", stem := S "UC-001" },
    meta := { id := some (.str (S "UC-001")), title := some (.str (S "Flow")),
              status := some (.str (S "APPROVED")) },
    body_snippet := [] }

/-- The bracketed comma-separated string form of a dependency list, e.g.
`[A, B]`. -/
def renderDeps (ids : List Str) : Str :=
  S "[" ++ (joinSep (S ", ") ids ++ S "]")

/-- A well-formed id for the string round trip: nonempty, and free of
commas, square brackets and whitespace. -/
def idWF (s : Str) : Bool :=
  !s.isEmpty && s.all (fun c => !(c == ',') && !(c == '[') && !(c == ']') && !(isWS c))

/-- Metadata agreement on every field the validator reads except the raw
`dependencies` value, whose normalized form must agree. -/
structure MetaEquiv (m₁ m₂ : Meta) : Prop where
  id_eq : m₁.id = m₂.id
  title_eq : m₁.title = m₂.title
  status_eq : m₁.status = m₂.status
  parent_goal_eq : m₁.parent_goal = m₂.parent_goal
  parent_feat_eq : m₁.parent_feat = m₂.parent_feat
  parent_uc_eq : m₁.parent_uc = m₂.parent_uc
  origin_eq : m₁.origin = m₂.origin
  hypothesis_eq : m₁.hypothesis = m₂.hypothesis
  verdict_eq : m₁.verdict = m₂.verdict
  research_required_eq : m₁.research_required = m₂.research_required
  deps_eq : normalizeDeps m₁.dependencies = normalizeDeps m₂.dependencies

/-- Two index pairs that agree up to the dependency representation. -/
structure PairEquiv (x y : Str × Entry) : Prop where
  key_eq : x.1 = y.1
  type_eq : x.2.type = y.2.type
  path_eq : x.2.path = y.2.path
  meta_eq : MetaEquiv x.2.meta y.2.meta

/-- Two snapshots that agree pairwise up to the dependency representation. -/
def SnapEquiv (ns₁ ns₂ : Snapshot) : Prop := List.Forall₂ PairEquiv ns₁ ns₂

/-- Lifting `PairEquiv`-agreement to lookup results. -/
def OptEntryEquiv : Option Entry → Option Entry → Prop
  | none, none => True
  | some e₁, some e₂ => e₁.type = e₂.type ∧ e₁.path = e₂.path ∧ MetaEquiv e₁.meta e₂.meta
  | _, _ => False

/-- Classifier: everything but a MISSING_FIELD error. -/
def notMissing (e : VErr) : Bool := !(e.error_type == ErrType.MISSING_FIELD)

/-- Classifier: the ORPHAN and GATE_VIOLATION findings. -/
def keepOG (e : VErr) : Bool :=
  e.error_type == ErrType.ORPHAN || e.error_type == ErrType.GATE_VIOLATION

/-- Replacing only the dependencies field of an entry. -/
def setDeps (e : Entry) (v : Option Val) : Entry :=
  { e with meta := { e.meta with dependencies := v } }

/-- A UseCase with a list-form dependency (C9 witness input). -/
def c9entry : Entry :=
  { type := .UseCase, path := { dir := S "dev_docs/logic", stem := S "UC-001" },
    meta := { id := some (.str (S "UC-001")), title := some (.str (S "Checkout")),
              status := some (.str (S "DRAFT")),
              dependencies := some (.list [S "UC-002"]) },
    body_snippet := [] }

/-- The GATE_VIOLATION record the G9 loop emits for a detected cycle. -/
def cycleErr (aid : Str) (e : Entry) (cyc : List Str) : VErr :=
  { artifact_id := aid, artifact_type := e.type, path := pathStr e.path,
    error_type := .GATE_VIOLATION,
    detail := S "Circular dependency detected: " ++ joinSep (S " -> ") cyc }

/-- Node A of the C2 witness cycle. -/
def c2eA : Entry :=
  { type := .UseCase, path := { dir := S "dev_docs/logic", stem := S "UC-001" },
    meta := { id := some (.str (S "UC-001")),
              dependencies := some (.list [S "UC-002"]) },
    body_snippet := [] }

/-- Node B of the C2 witness cycle. -/
def c2eB : Entry :=
  { type := .UseCase, path := { dir := S "dev_docs/logic", stem := S "UC-002" },
    meta := { id := some (.str (S "UC-002")),
              dependencies := some (.list [S "UC-003"]) },
    body_snippet := [] }

/-- Node C of the C2 witness cycle. -/
def c2eC : Entry :=
  { type := .UseCase, path := { dir := S "dev_docs/logic", stem := S "UC-003" },
    meta := { id := some (.str (S "UC-003")),
              dependencies := some (.list [S "UC-001"]) },
    body_snippet := [] }

/-- **C1.** `check_transition` is a pure deny-list over the status pair: from
APPROVED, exactly DRAFT and REVIEW are refused; from DONE, every valid status
except ARCHIVED is refused; every other pair of valid statuses is allowed. -/
theorem check_transition_deny_list (aid : Str) :
    ((check_transition aid (S "APPROVED") (S "DRAFT")).isSome = true) ∧
    ((check_transition aid (S "APPROVED") (S "REVIEW")).isSome = true) ∧
    (∀ s, s ∈ VALID_STATUSES → s ≠ S "ARCHIVED" →
      (check_transition aid (S "DONE") s).isSome = true) ∧
    (∀ cur new, cur ∈ VALID_STATUSES → new ∈ VALID_STATUSES →
      ¬(cur = S "APPROVED" ∧ (new = S "DRAFT" ∨ new = S "REVIEW")) →
      ¬(cur = S "DONE" ∧ new ≠ S "ARCHIVED") →
      check_transition aid cur new = none) := by
  refine ⟨rfl, rfl, ?_, ?_⟩
  · intro s hs hne
    simp only [VALID_STATUSES, List.mem_cons, List.not_mem_nil, or_false] at hs
    rcases hs with rfl | rfl | rfl | rfl | rfl | rfl | rfl | rfl
    · rfl
    · rfl
    · rfl
    · rfl
    · rfl
    · rfl
    · exact absurd rfl hne
    · rfl
  · intro cur new hc hn h1 h2
    simp only [VALID_STATUSES, List.mem_cons, List.not_mem_nil, or_false] at hc hn
    rcases hc with rfl | rfl | rfl | rfl | rfl | rfl | rfl | rfl <;>
      rcases hn with rfl | rfl | rfl | rfl | rfl | rfl | rfl | rfl <;>
        first
        | rfl
        | (exfalso; revert h1 h2; decide)

/-- Witness for C1: DONE → DONE is refused (DONE is terminal except for ARCHIVED). -/
theorem check_transition_deny_list_witness :
    (check_transition (S "TSK-001") (S "DONE") (S "DONE")).isSome = true :=
  (check_transition_deny_list (S "TSK-001")).2.2.1 (S "DONE") (by decide) (by decide)

/-- G5 errors carry the node's id and are MISSING_FIELD errors. -/
theorem missing_mem {x : Str × Entry} {e : VErr} (h : e ∈ missingFieldErrs x) :
    e.artifact_id = x.1 ∧ e.error_type = .MISSING_FIELD := by
  simp only [missingFieldErrs, List.mem_filterMap] at h
  obtain ⟨rf, -, h⟩ := h
  split at h
  · simp at h
  · simp only [Option.some.injEq] at h
    subst h
    exact ⟨rfl, rfl⟩

/-- G3 errors carry the node's id and are ORPHAN errors. -/
theorem orphanP_mem {idx : Snapshot} {x : Str × Entry} {e : VErr}
    (h : e ∈ orphanParentErrs idx x) :
    e.artifact_id = x.1 ∧ e.error_type = .ORPHAN := by
  simp only [orphanParentErrs, List.mem_filterMap] at h
  obtain ⟨pf, -, h⟩ := h
  rcases hv : metaGet x.2.meta pf with _ | v <;> rw [hv] at h
  · simp at h
  · simp only [Option.ite_none_right_eq_some, Option.some.injEq] at h
    obtain ⟨-, h⟩ := h
    subst h
    exact ⟨rfl, rfl⟩

/-- G8 errors carry the node's id and are ORPHAN errors or DONE-gate
GATE_VIOLATIONs (message starting with the fixed text). -/
theorem dep_mem {idx : Snapshot} {x : Str × Entry} {e : VErr}
    (h : e ∈ depErrs idx x) :
    e.artifact_id = x.1 ∧
      (e.error_type = .ORPHAN ∨
        (e.error_type = .GATE_VIOLATION ∧
          ∃ r, e.detail = S "Cannot mark '" ++ r)) := by
  simp only [depErrs, List.mem_filterMap] at h
  obtain ⟨d, -, h⟩ := h
  split at h
  · simp only [Option.some.injEq] at h
    subst h
    exact ⟨rfl, Or.inl rfl⟩
  · split at h
    · split at h
      · simp at h
      · simp only [Option.some.injEq] at h
        subst h
        exact ⟨rfl, Or.inr ⟨rfl, _, rfl⟩⟩
    · simp at h

/-- G1 errors carry the node's id and are BLOCKED_BY_PARENT errors. -/
theorem task_mem {idx : Snapshot} {x : Str × Entry} {e : VErr}
    (h : e ∈ taskGateErrs idx x) :
    e.artifact_id = x.1 ∧ e.error_type = .BLOCKED_BY_PARENT := by
  simp only [taskGateErrs] at h
  split at h
  · split at h
    · simp at h
    · split at h
      · simp at h
      · simp only [List.mem_singleton] at h
        subst h
        exact ⟨rfl, rfl⟩
  · simp at h

/-- G2 errors carry the node's id and are GATE_VIOLATIONs whose message
starts with the research-gate text. -/
theorem uc_mem {idx : Snapshot} {x : Str × Entry} {e : VErr}
    (h : e ∈ ucGateErrs idx x) :
    e.artifact_id = x.1 ∧ e.error_type = .GATE_VIOLATION ∧
      ∃ r, e.detail = S "Parent Feature '" ++ r := by
  simp only [ucGateErrs] at h
  split at h
  · split at h
    · simp at h
    · split at h
      · split at h
        · simp only [List.mem_singleton] at h
          subst h
          exact ⟨rfl, rfl, _, rfl⟩
        · simp at h
      · simp at h
  · simp at h

/-- Every error of the main per-node loop carries that node's id, and is a
MISSING_FIELD, ORPHAN or BLOCKED_BY_PARENT, or a GATE_VIOLATION whose
message starts with the DONE-gate or the research-gate text. -/
theorem nodeErrs_mem {idx : Snapshot} {x : Str × Entry} {e : VErr}
    (h : e ∈ nodeErrs idx x) :
    e.artifact_id = x.1 ∧
      (e.error_type = .MISSING_FIELD ∨ e.error_type = .ORPHAN ∨
        e.error_type = .BLOCKED_BY_PARENT ∨
        (e.error_type = .GATE_VIOLATION ∧
          ((∃ r, e.detail = S "Cannot mark '" ++ r) ∨
            (∃ r, e.detail = S "Parent Feature '" ++ r)))) := by
  simp only [nodeErrs, List.mem_append] at h
  rcases h with ((((h | h) | h) | h) | h)
  · obtain ⟨h1, h2⟩ := missing_mem h
    exact ⟨h1, Or.inl h2⟩
  · obtain ⟨h1, h2⟩ := orphanP_mem h
    exact ⟨h1, Or.inr (Or.inl h2)⟩
  · obtain ⟨h1, h2⟩ := dep_mem h
    rcases h2 with h2 | ⟨h2, hr⟩
    · exact ⟨h1, Or.inr (Or.inl h2)⟩
    · exact ⟨h1, Or.inr (Or.inr (Or.inr ⟨h2, Or.inl hr⟩))⟩
  · obtain ⟨h1, h2⟩ := task_mem h
    exact ⟨h1, Or.inr (Or.inr (Or.inl h2))⟩
  · obtain ⟨h1, h2, hr⟩ := uc_mem h
    exact ⟨h1, Or.inr (Or.inr (Or.inr ⟨h2, Or.inr hr⟩))⟩

/-- Every error of the G4 loop is a DUPLICATE_ID error. -/
theorem dupCheck_mem {x : Str × Entry} {e : VErr} (h : e ∈ dupCheck x) :
    e.error_type = .DUPLICATE_ID := by
  simp only [dupCheck] at h
  split at h
  · simp at h
  · simp only [List.mem_singleton] at h
    subst h
    rfl

/-- Every error of the (mis-scoped) W3 block is a SOFT_WARNING. -/
theorem w3Errs_mem {fb : Str → Bool} {o : Option (Str × Entry)} {e : VErr}
    (h : e ∈ w3Errs fb o) : e.error_type = .SOFT_WARNING := by
  match o with
  | none => simp [w3Errs] at h
  | some (lid, le) =>
    simp only [w3Errs] at h
    split at h
    · simp only [List.mem_singleton] at h
      subst h
      rfl
    · simp at h

/-- Every error of the G9 loop is a SOFT_WARNING or a GATE_VIOLATION whose
message starts with the circular-dependency text. -/
theorem g9Loop_mem {ns : Snapshot} {graph : List (Str × List Str)} {fuel : Nat}
    {fb : Str → Bool} {lastE : Option (Str × Entry)} {e : VErr} :
    ∀ {ks : List Str} {visited : List Str},
      e ∈ g9Loop ns graph fuel fb lastE ks visited →
      e.error_type = .SOFT_WARNING ∨
        (e.error_type = .GATE_VIOLATION ∧
          ∃ r, e.detail = S "Circular dependency detected: " ++ r) := by
  intro ks
  induction ks with
  | nil => intro visited h; simp [g9Loop] at h
  | cons k ks ih =>
    intro visited h
    simp only [g9Loop] at h
    split at h
    · rcases List.mem_append.mp h with h | h
      · exact Or.inl (w3Errs_mem h)
      · exact ih h
    · rcases hfc : find_cycle graph fuel k visited [] with ⟨cyc, v', s'⟩
      rw [hfc] at h
      match cyc with
      | some c =>
        simp only at h
        rcases hl : lookup ns k with _ | en <;> rw [hl] at h
        · simp at h
        · simp only [List.mem_singleton] at h
          subst h
          exact Or.inr ⟨rfl, _, rfl⟩
      | none =>
        simp only at h
        rcases List.mem_append.mp h with h | h
        · exact Or.inl (w3Errs_mem h)
        · exact ih h

/-- `meta.get(k) == t` holds exactly for the string value `t`. -/
theorem valIsStr_iff (o : Option Val) (t : Str) :
    valIsStr o t = true ↔ o = some (.str t) := by
  cases o with
  | none => simp [valIsStr]
  | some v => cases v <;> simp [valIsStr]

/-- **C6.** The Task creation gate: with a proposed parent-UseCase id `P`
(and no overriding `parent_uc` in the extra metadata), creation fails with
the "create the parent first" message when `P` is absent from the snapshot,
fails with a message naming the parent's actual status when `P` resolves
with a string status other than APPROVED, and passes the gate exactly when
`P` resolves with status APPROVED. -/
theorem create_gate_task_parent (idx : Snapshot) (P : Str) (md : Meta)
    (hmd : md.parent_uc = none) :
    (lookup idx P = none →
      create_artifact_gate (S "Task") (some P) md idx =
        some (S "Parent '" ++ P ++ S "' not found. Create the parent first.")) ∧
    (∀ e s, lookup idx P = some e → e.meta.status = some (.str s) →
      s ≠ S "APPROVED" →
      create_artifact_gate (S "Task") (some P) md idx =
        some (S "Cannot create Task: parent UseCase '" ++ P ++
          S "' has status '" ++ s ++ S "'. Must be APPROVED.")) ∧
    (create_artifact_gate (S "Task") (some P) md idx = none ↔
      ∃ e, lookup idx P = some e ∧ e.meta.status = some (.str (S "APPROVED"))) := by
  have hT : (S "Task") ∈ AGENT_VALID_TYPES := by decide
  refine ⟨?_, ?_, ?_⟩
  · intro h
    simp [create_artifact_gate, hasKey, h, hT]
  · intro e s hl hs hne
    simp [create_artifact_gate, create_task_gate, hasKey, hl, hmd, hT,
      valIsStr, hs, pyStrOpt, pyStr, hne]
  · constructor
    · intro h
      rcases hl : lookup idx P with _ | e
      · simp [create_artifact_gate, create_task_gate, hasKey, hl, hmd, hT] at h
      · refine ⟨e, rfl, ?_⟩
        cases hb : valIsStr e.meta.status (S "APPROVED") with
        | true => exact (valIsStr_iff _ _).mp hb
        | false =>
          exfalso
          simp [create_artifact_gate, create_task_gate, hasKey, hl, hmd, hT, hb] at h
    · rintro ⟨e, hl, hs⟩
      simp [create_artifact_gate, create_task_gate, hasKey, hl, hmd, hT,
        valIsStr_iff, hs]

/-- Witness for C6: in a one-entry snapshot whose UseCase is in REVIEW, the
gate returns the error naming REVIEW. -/
theorem create_gate_task_parent_witness :
    create_artifact_gate (S "Task") (some (S "UC-100")) {}
        [(S "UC-100", c6entry)] =
      some (S "Cannot create Task: parent UseCase '" ++ S "UC-100" ++
        S "' has status '" ++ S "REVIEW" ++ S "'. Must be APPROVED.") :=
  (create_gate_task_parent [(S "UC-100", c6entry)] (S "UC-100") {} rfl).2.1
    c6entry (S "REVIEW") rfl rfl (by decide)

/-- Membership after a dict insert: the new pair or an old one. -/
theorem mem_dictInsert {x : Str × Entry} {k : Str} {v : Entry} :
    ∀ {l : Snapshot}, x ∈ dictInsert k v l → x = (k, v) ∨ x ∈ l := by
  intro l
  induction l with
  | nil =>
    intro h
    rw [dictInsert] at h
    exact Or.inl (List.mem_singleton.mp h)
  | cons y rest ih =>
    intro h
    rcases y with ⟨k', v'⟩
    rw [dictInsert] at h
    split at h
    · rcases List.mem_cons.mp h with h | h
      · exact Or.inl h
      · exact Or.inr (List.mem_cons_of_mem _ h)
    · rcases List.mem_cons.mp h with h | h
      · exact Or.inr (by simp [h])
      · rcases ih h with h | h
        · exact Or.inl h
        · exact Or.inr (List.mem_cons_of_mem _ h)

/-- The keys after a dict insert: unchanged when the key was present,
appended at the end otherwise. -/
theorem keys_dictInsert (k : Str) (v : Entry) :
    ∀ l : Snapshot,
      (dictInsert k v l).map Prod.fst =
        if k ∈ l.map Prod.fst then l.map Prod.fst else l.map Prod.fst ++ [k] := by
  intro l
  induction l with
  | nil => rw [dictInsert]; simp
  | cons y rest ih =>
    rcases y with ⟨k', v'⟩
    rw [dictInsert]
    split
    · next hk =>
      subst hk
      simp
    · next hk =>
      simp only [List.map_cons, ih]
      by_cases hm : k ∈ rest.map Prod.fst
      · simp [hm, List.mem_cons, Ne.symm hk]
      · simp [hm, List.mem_cons, Ne.symm hk]

/-- A dict insert preserves key uniqueness. -/
theorem nodup_dictInsert {k : Str} {v : Entry} {l : Snapshot}
    (h : (l.map Prod.fst).Nodup) : ((dictInsert k v l).map Prod.fst).Nodup := by
  rw [keys_dictInsert]
  split
  · exact h
  · next hk =>
    exact List.Nodup.append h (List.nodup_singleton k)
      (by simpa [List.disjoint_singleton] using hk)

/-- One indexing step preserves the C10 invariant. -/
theorem indexFile_good {idx : Snapshot} {f : SrcFile}
    (h : ∀ x ∈ idx, goodPair x) : ∀ x ∈ indexFile idx f, goodPair x := by
  intro x hx
  rw [indexFile] at hx
  split at hx
  · exact h x hx
  · next v hid =>
    split at hx
    · split at hx
      · exact h x hx
      · next t ht =>
        rcases mem_dictInsert hx with rfl | hx
        · exact ⟨v, hid, by assumption, rfl, ht⟩
        · exact h x hx
    · exact h x hx

/-- One indexing step preserves key uniqueness. -/
theorem indexFile_nodup {idx : Snapshot} {f : SrcFile}
    (h : (idx.map Prod.fst).Nodup) : ((indexFile idx f).map Prod.fst).Nodup := by
  rw [indexFile]
  split
  · exact h
  · split
    · split
      · exact h
      · exact nodup_dictInsert h
    · exact h

/-- A document with no truthy id, or with an unrecognized id prefix, leaves
the index unchanged. -/
theorem indexFile_skip {idx : Snapshot} {f : SrcFile}
    (hbad : ∀ v, f.meta.id = some v → truthy v = false ∨ typeFromId (pyStr v) = none) :
    indexFile idx f = idx := by
  rw [indexFile]
  split
  · rfl
  · next v hid =>
    rcases hbad v hid with hb | hb
    · rw [if_neg (by simp [hb])]
    · split
      · rw [hb]
      · rfl

/-- Folding the index build preserves the C10 invariant. -/
theorem build_fold_good :
    ∀ (files : List SrcFile) (idx : Snapshot), (∀ x ∈ idx, goodPair x) →
      ∀ x ∈ files.foldl indexFile idx, goodPair x := by
  intro files
  induction files with
  | nil => intro idx h; exact h
  | cons f fs ih => intro idx h; exact ih _ (indexFile_good h)

/-- Folding the index build preserves key uniqueness. -/
theorem build_fold_nodup :
    ∀ (files : List SrcFile) (idx : Snapshot), (idx.map Prod.fst).Nodup →
      ((files.foldl indexFile idx).map Prod.fst).Nodup := by
  intro files
  induction files with
  | nil => intro idx h; exact h
  | cons f fs ih => intro idx h; exact ih _ (indexFile_nodup h)

/-- **C10.** Every index entry's key is the string form of the id declared
in its metadata (a truthy id), and its type is the one the fixed prefix
table assigns to that id; a document with no truthy id, or whose id has an
unrecognized prefix, leaves the index untouched (it never appears). -/
theorem build_index_invariant :
    (∀ files : List SrcFile, ∀ x ∈ build_index files,
      ∃ v, x.2.meta.id = some v ∧ truthy v = true ∧ x.1 = pyStr v ∧
        typeFromId x.1 = some x.2.type) ∧
    (∀ (pre : List SrcFile) (f : SrcFile) (post : List SrcFile),
      (∀ v, f.meta.id = some v → truthy v = false ∨ typeFromId (pyStr v) = none) →
      build_index (pre ++ f :: post) = build_index (pre ++ post)) := by
  constructor
  · intro files x hx
    exact build_fold_good files [] (by simp) x hx
  · intro pre f post hbad
    unfold build_index
    rw [List.foldl_append, List.foldl_append, List.foldl_cons, indexFile_skip hbad]

/-- Witness for C10: a file whose frontmatter has no id field is skipped. -/
theorem build_index_invariant_witness :
    build_index ([] ++ c10file :: []) = build_index ([] ++ []) :=
  build_index_invariant.2 [] c10file [] (fun v hv => by simp [c10file] at hv)

/-- **C5 (amended).** The index build is last-wins: no two entries of a
built index ever share an id.  The DUPLICATE_ID errors of a validation run
are exactly the G4 stem-mismatch errors — one per index entry whose file
stem differs from its declared id — so two files that declare the same id
are not each flagged. -/
theorem index_unique_and_dup_flags :
    (∀ files : List SrcFile, ((build_index files).map Prod.fst).Nodup) ∧
    (∀ (ns : Snapshot) (fb : Str → Bool),
      (validate ns fb).filter isDupErr = (ns.map dupCheck).flatten) := by
  constructor
  · intro files
    exact build_fold_nodup files [] (by simp)
  · intro ns fb
    unfold validate
    rw [List.filter_append, List.filter_append]
    have h1 : ((ns.map dupCheck).flatten).filter isDupErr = (ns.map dupCheck).flatten := by
      rw [List.filter_eq_self]
      intro e he
      rcases List.mem_flatten.mp he with ⟨l, hl, hel⟩
      rcases List.mem_map.mp hl with ⟨x, -, rfl⟩
      simp [isDupErr, dupCheck_mem hel]
    have h2 : ((ns.map (nodeErrs ns)).flatten).filter isDupErr = [] := by
      rw [List.filter_eq_nil_iff]
      intro e he
      rcases List.mem_flatten.mp he with ⟨l, hl, hel⟩
      rcases List.mem_map.mp hl with ⟨x, -, rfl⟩
      rcases (nodeErrs_mem hel).2 with h | h | h | ⟨h, -⟩ <;> simp [isDupErr, h]
    have h3 : (g9w3 ns fb).filter isDupErr = [] := by
      rw [List.filter_eq_nil_iff]
      intro e he
      rcases g9Loop_mem he with h | ⟨h, -⟩ <;> simp [isDupErr, h]
    rw [h1, h2, h3, List.append_nil, List.append_nil]

/-- Counterexample to C5 as stated: two distinct files declare the same id,
yet the built index holds a single entry and the validation run flags no
file at all with a DUPLICATE_ID error (let alone both). -/
theorem duplicate_id_counterexample :
    (build_index [c5file1, c5file2]).length = 1 ∧
    (validate (build_index [c5file1, c5file2]) (fun _ => true)).filter isDupErr
      = [] := by
  exact ⟨rfl, rfl⟩

/-- **C7 (code bug).** The W3 advisory block is indented into the G9 loop
and reads the stale loop variables of the earlier loops, so it only ever
looks at the LAST index entry.  With the NEEDS_FIX node first and a DRAFT
node last, no SOFT_WARNING at all is emitted (the claim requires exactly
one, attributed to the NEEDS_FIX node); with the same two nodes in the
opposite order, the warning for the NEEDS_FIX node is emitted twice. -/
theorem soft_warning_misscoped_eval :
    ((validate [(S "TSK-001", c7e1), (S "TSK-002", c7e2)] (fun _ => false)).countP
        isSoftW = 0) ∧
    ((validate [(S "TSK-002", c7e2), (S "TSK-001", c7e1)] (fun _ => false)).countP
        isSoftW = 2) ∧
    ((validate [(S "TSK-002", c7e2), (S "TSK-001", c7e1)] (fun _ => false)).filter
        isSoftW).all (fun e => e.artifact_id == S "TSK-001") = true := by
  exact ⟨rfl, rfl, rfl⟩

/-- Fixed message prefixes never collide: DONE-gate vs research-gate. -/
theorem startsW_cannot_parentFeat (r : Str) :
    startsW (S "Cannot mark '") (S "Parent Feature '" ++ r) = false := rfl

/-- Fixed message prefixes never collide: DONE-gate vs cycle message. -/
theorem startsW_cannot_circular (r : Str) :
    startsW (S "Cannot mark '") (S "Circular dependency detected: " ++ r) = false := rfl

/-- Fixed message prefixes never collide: cycle message vs DONE-gate. -/
theorem startsW_circular_cannot (r : Str) :
    startsW (S "Circular dependency detected: ") (S "Cannot mark '" ++ r) = false := rfl

/-- Fixed message prefixes never collide: cycle message vs research-gate. -/
theorem startsW_circular_parentFeat (r : Str) :
    startsW (S "Circular dependency detected: ") (S "Parent Feature '" ++ r) = false := rfl

/-- A DONE-gate message does start with the DONE-gate prefix. -/
theorem startsW_cannot_self (r : Str) :
    startsW (S "Cannot mark '") (S "Cannot mark '" ++ r) = true := rfl

/-- A cycle message does start with the cycle prefix. -/
theorem startsW_circular_self (r : Str) :
    startsW (S "Circular dependency detected: ") (S "Circular dependency detected: " ++ r) = true := rfl

/-- The G8 segment of one node emits exactly `doneViolations` many
DONE-gate GATE_VIOLATIONs for that node. -/
theorem depErrs_countP (idx : Snapshot) (x : Str × Entry) :
    (depErrs idx x).countP (isDoneGateFor x.1) = doneViolations idx x := by
  unfold depErrs doneViolations
  rw [List.countP_filterMap]
  by_cases hD : valIsStr x.2.meta.status (S "DONE") = true
  · rw [if_pos hD]
    apply List.countP_congr
    intro d _
    rcases hl : lookup idx d with _ | de
    · simp [hl, isDoneGateFor]
    · rcases hde : valIsStr de.meta.status (S "DONE") with _ | _
      · simp [hl, hD, hde, isDoneGateFor, startsW_cannot_self]
      · simp [hl, hD, hde]
  · have hD' : valIsStr x.2.meta.status (S "DONE") = false := by
      cases h : valIsStr x.2.meta.status (S "DONE")
      · rfl
      · exact absurd h hD
    rw [if_neg hD]
    rw [List.countP_eq_zero]
    intro d _
    rcases hl : lookup idx d with _ | de
    · simp [hl, isDoneGateFor]
    · simp [hl, hD']

/-- The whole main loop of one node emits exactly `doneViolations` many
DONE-gate GATE_VIOLATIONs for that node (the other checks emit none). -/
theorem nodeErrs_countP_doneGate (idx : Snapshot) (x : Str × Entry) :
    (nodeErrs idx x).countP (isDoneGateFor x.1) = doneViolations idx x := by
  unfold nodeErrs
  rw [List.countP_append, List.countP_append, List.countP_append, List.countP_append]
  have h1 : (missingFieldErrs x).countP (isDoneGateFor x.1) = 0 :=
    List.countP_eq_zero.mpr fun e he => by
      simp [isDoneGateFor, (missing_mem he).2]
  have h2 : (orphanParentErrs idx x).countP (isDoneGateFor x.1) = 0 :=
    List.countP_eq_zero.mpr fun e he => by
      simp [isDoneGateFor, (orphanP_mem he).2]
  have h4 : (taskGateErrs idx x).countP (isDoneGateFor x.1) = 0 :=
    List.countP_eq_zero.mpr fun e he => by
      simp [isDoneGateFor, (task_mem he).2]
  have h5 : (ucGateErrs idx x).countP (isDoneGateFor x.1) = 0 :=
    List.countP_eq_zero.mpr fun e he => by
      obtain ⟨-, -, r, hdet⟩ := uc_mem he
      simp [isDoneGateFor, hdet, startsW_cannot_parentFeat]
  rw [h1, h2, h4, h5, depErrs_countP]
  omega

/-- A node other than `aid` contributes no DONE-gate violation counted for
`aid`. -/
theorem nodeErrs_countP_doneGate_other (idx : Snapshot) (x : Str × Entry)
    (aid : Str) (hne : x.1 ≠ aid) :
    (nodeErrs idx x).countP (isDoneGateFor aid) = 0 :=
  List.countP_eq_zero.mpr fun e he => by
    simp [isDoneGateFor, (nodeErrs_mem he).1, hne]

/-- The G9 loop (cycle check plus W3 block) contributes no DONE-gate
violation. -/
theorem g9w3_countP_doneGate (ns : Snapshot) (fb : Str → Bool) (aid : Str) :
    (g9w3 ns fb).countP (isDoneGateFor aid) = 0 :=
  List.countP_eq_zero.mpr fun e he => by
    rcases g9Loop_mem he with h | ⟨h, r, hdet⟩
    · simp [isDoneGateFor, h]
    · simp [isDoneGateFor, hdet, startsW_cannot_circular]

/-- The G4 loop contributes no DONE-gate violation. -/
theorem dup_countP_doneGate (ns : Snapshot) (aid : Str) :
    ((ns.map dupCheck).flatten).countP (isDoneGateFor aid) = 0 :=
  List.countP_eq_zero.mpr fun e he => by
    rcases List.mem_flatten.mp he with ⟨l, hl, hel⟩
    rcases List.mem_map.mp hl with ⟨x, -, rfl⟩
    simp [isDoneGateFor, dupCheck_mem hel]

/-- **C3.** In any snapshot with unique ids, the number of DONE-gate
GATE_VIOLATIONs a validation run attributes to a node equals, when that
node's status is DONE, the number of its dependency entries that resolve
to a node whose status is not DONE — and is zero when its status is not
DONE or when every resolvable dependency is DONE. -/
theorem done_gate_spec (ns : Snapshot) (fb : Str → Bool) (aid : Str) (e : Entry)
    (_hwf : SnapshotWF ns) (hnd : (ns.map Prod.fst).Nodup) (hmem : (aid, e) ∈ ns) :
    (validate ns fb).countP (isDoneGateFor aid) = doneViolations ns (aid, e) := by
  obtain ⟨l1, l2, rfl⟩ := List.append_of_mem hmem
  rw [List.map_append, List.map_cons] at hnd
  have haid1 : aid ∉ l1.map Prod.fst := by
    intro hmem1
    exact (List.disjoint_of_nodup_append hnd) hmem1 (List.mem_cons_self _ _)
  have haid2 : aid ∉ l2.map Prod.fst := by
    have h2 := (List.nodup_append.mp hnd).2.1
    exact (List.nodup_cons.mp h2).1
  unfold validate
  rw [List.countP_append, List.countP_append, dup_countP_doneGate,
    g9w3_countP_doneGate, List.countP_flatten]
  simp only [List.map_append, List.map_cons, List.map_map, List.sum_append,
    List.sum_cons]
  have hz1 : ((l1.map (List.countP (isDoneGateFor aid) ∘ nodeErrs (l1 ++ (aid, e) :: l2)))).sum = 0 := by
    apply List.sum_eq_zero
    intro y hy
    rcases List.mem_map.mp hy with ⟨x, hx, rfl⟩
    exact nodeErrs_countP_doneGate_other _ x aid
      (fun h => haid1 (h ▸ List.mem_map_of_mem Prod.fst hx))
  have hz2 : ((l2.map (List.countP (isDoneGateFor aid) ∘ nodeErrs (l1 ++ (aid, e) :: l2)))).sum = 0 := by
    apply List.sum_eq_zero
    intro y hy
    rcases List.mem_map.mp hy with ⟨x, hx, rfl⟩
    exact nodeErrs_countP_doneGate_other _ x aid
      (fun h => haid2 (h ▸ List.mem_map_of_mem Prod.fst hx))
  rw [hz1, hz2]
  simpa using nodeErrs_countP_doneGate (l1 ++ (aid, e) :: l2) (aid, e)

/-- Witness for C3: a DONE node with one non-DONE dependency gets exactly
its predicted DONE-gate violation count. -/
theorem done_gate_spec_witness :
    (validate [(S "UC-001", c3e1), (S "UC-002", c3e2)] (fun _ => true)).countP
        (isDoneGateFor (S "UC-001")) =
      doneViolations [(S "UC-001", c3e1), (S "UC-002", c3e2)] (S "UC-001", c3e1) :=
  done_gate_spec [(S "UC-001", c3e1), (S "UC-002", c3e2)] (fun _ => true)
    (S "UC-001") c3e1 (by decide) (by decide) (by decide)

/-- The G1 segment of one node emits exactly `blockedPredicted` many
BLOCKED_BY_PARENT errors for that node. -/
theorem taskGate_countP (idx : Snapshot) (x : Str × Entry) :
    (taskGateErrs idx x).countP (isBlockedFor x.1) = blockedPredicted idx x := by
  unfold taskGateErrs blockedPredicted
  by_cases hT : x.2.type = .Task
  · simp only [hT, if_true]
    rcases hl : lookup idx (pyStrD x.2.meta.parent_uc []) with _ | p <;>
      simp only [hl]
    · rfl
    · by_cases hA : valIsStr p.meta.status (S "APPROVED") = true
      · simp [hA]
      · have hA' : valIsStr p.meta.status (S "APPROVED") = false := by
          cases h : valIsStr p.meta.status (S "APPROVED")
          · rfl
          · exact absurd h hA
        simp [hA', isBlockedFor]
  · simp [hT]

/-- The whole main loop of one node emits exactly `blockedPredicted` many
BLOCKED_BY_PARENT errors for that node (no other check emits that kind). -/
theorem nodeErrs_countP_blocked (idx : Snapshot) (x : Str × Entry) :
    (nodeErrs idx x).countP (isBlockedFor x.1) = blockedPredicted idx x := by
  unfold nodeErrs
  rw [List.countP_append, List.countP_append, List.countP_append, List.countP_append]
  have h1 : (missingFieldErrs x).countP (isBlockedFor x.1) = 0 :=
    List.countP_eq_zero.mpr fun e he => by
      simp [isBlockedFor, (missing_mem he).2]
  have h2 : (orphanParentErrs idx x).countP (isBlockedFor x.1) = 0 :=
    List.countP_eq_zero.mpr fun e he => by
      simp [isBlockedFor, (orphanP_mem he).2]
  have h3 : (depErrs idx x).countP (isBlockedFor x.1) = 0 :=
    List.countP_eq_zero.mpr fun e he => by
      rcases (dep_mem he).2 with h | ⟨h, -⟩ <;> simp [isBlockedFor, h]
  have h5 : (ucGateErrs idx x).countP (isBlockedFor x.1) = 0 :=
    List.countP_eq_zero.mpr fun e he => by
      simp [isBlockedFor, (uc_mem he).2.1]
  rw [h1, h2, h3, h5, taskGate_countP]
  omega

/-- A node other than `aid` contributes no BLOCKED_BY_PARENT error counted
for `aid`. -/
theorem nodeErrs_countP_blocked_other (idx : Snapshot) (x : Str × Entry)
    (aid : Str) (hne : x.1 ≠ aid) :
    (nodeErrs idx x).countP (isBlockedFor aid) = 0 :=
  List.countP_eq_zero.mpr fun e he => by
    simp [isBlockedFor, (nodeErrs_mem he).1, hne]

/-- The G9 loop contributes no BLOCKED_BY_PARENT error. -/
theorem g9w3_countP_blocked (ns : Snapshot) (fb : Str → Bool) (aid : Str) :
    (g9w3 ns fb).countP (isBlockedFor aid) = 0 :=
  List.countP_eq_zero.mpr fun e he => by
    rcases g9Loop_mem he with h | ⟨h, -⟩ <;> simp [isBlockedFor, h]

/-- The G4 loop contributes no BLOCKED_BY_PARENT error. -/
theorem dup_countP_blocked (ns : Snapshot) (aid : Str) :
    ((ns.map dupCheck).flatten).countP (isBlockedFor aid) = 0 :=
  List.countP_eq_zero.mpr fun e he => by
    rcases List.mem_flatten.mp he with ⟨l, hl, hel⟩
    rcases List.mem_map.mp hl with ⟨x, -, rfl⟩
    simp [isBlockedFor, dupCheck_mem hel]

/-- **C4 (amended).** In any snapshot with unique ids, a validation run
attributes exactly one BLOCKED_BY_PARENT error to a Task node when its
`parent_uc` field resolves to a node whose status is not APPROVED, and none
otherwise — in particular none when the parent does not resolve (that case
only yields an ORPHAN from the parent-reference check). -/
theorem blocked_by_parent_spec (ns : Snapshot) (fb : Str → Bool) (aid : Str)
    (e : Entry) (_hwf : SnapshotWF ns) (hnd : (ns.map Prod.fst).Nodup)
    (hmem : (aid, e) ∈ ns) :
    (validate ns fb).countP (isBlockedFor aid) = blockedPredicted ns (aid, e) := by
  obtain ⟨l1, l2, rfl⟩ := List.append_of_mem hmem
  rw [List.map_append, List.map_cons] at hnd
  have haid1 : aid ∉ l1.map Prod.fst := by
    intro hmem1
    exact (List.disjoint_of_nodup_append hnd) hmem1 (List.mem_cons_self _ _)
  have haid2 : aid ∉ l2.map Prod.fst := by
    have h2 := (List.nodup_append.mp hnd).2.1
    exact (List.nodup_cons.mp h2).1
  unfold validate
  rw [List.countP_append, List.countP_append, dup_countP_blocked,
    g9w3_countP_blocked, List.countP_flatten]
  simp only [List.map_append, List.map_cons, List.map_map, List.sum_append,
    List.sum_cons]
  have hz1 : ((l1.map (List.countP (isBlockedFor aid) ∘ nodeErrs (l1 ++ (aid, e) :: l2)))).sum = 0 := by
    apply List.sum_eq_zero
    intro y hy
    rcases List.mem_map.mp hy with ⟨x, hx, rfl⟩
    exact nodeErrs_countP_blocked_other _ x aid
      (fun h => haid1 (h ▸ List.mem_map_of_mem Prod.fst hx))
  have hz2 : ((l2.map (List.countP (isBlockedFor aid) ∘ nodeErrs (l1 ++ (aid, e) :: l2)))).sum = 0 := by
    apply List.sum_eq_zero
    intro y hy
    rcases List.mem_map.mp hy with ⟨x, hx, rfl⟩
    exact nodeErrs_countP_blocked_other _ x aid
      (fun h => haid2 (h ▸ List.mem_map_of_mem Prod.fst hx))
  rw [hz1, hz2]
  simpa using nodeErrs_countP_blocked (l1 ++ (aid, e) :: l2) (aid, e)

/-- Counterexample to C4 as stated: a Task whose `parent_uc` names an id
absent from the snapshot receives NO BLOCKED_BY_PARENT error (it gets one
ORPHAN from the parent-reference check instead). -/
theorem blocked_missing_parent_counterexample :
    (lookup [(S "TSK-100", c4task)] (S "UC-404") = none) ∧
    (validate [(S "TSK-100", c4task)] (fun _ => true)).countP
        (fun e => e.error_type == ErrType.BLOCKED_BY_PARENT) = 0 ∧
    (validate [(S "TSK-100", c4task)] (fun _ => true)).countP
        (fun e => e.error_type == ErrType.ORPHAN) = 1 := by
  exact ⟨rfl, rfl, rfl⟩

/-- Witness for C4: a Task whose parent UseCase is in REVIEW gets exactly
its predicted single BLOCKED_BY_PARENT error. -/
theorem blocked_by_parent_spec_witness :
    (validate [(S "UC-100", c6entry),
        (S "TSK-200",
          { type := .Task, path := { dir := S "execution/backlog", stem := S "TSK-200" },
            meta := { id := some (.str (S "TSK-200")),
                      title := some (.str (S "Implement")),
                      status := some (.str (S "DRAFT")),
                      parent_uc := some (.str (S "UC-100")) },
            body_snippet := [] })] (fun _ => true)).countP
        (isBlockedFor (S "TSK-200")) =
      blockedPredicted [(S "UC-100", c6entry),
        (S "TSK-200",
          { type := .Task, path := { dir := S "execution/backlog", stem := S "TSK-200" },
            meta := { id := some (.str (S "TSK-200")),
                      title := some (.str (S "Implement")),
                      status := some (.str (S "DRAFT")),
                      parent_uc := some (.str (S "UC-100")) },
            body_snippet := [] })]
        (S "TSK-200",
          { type := .Task, path := { dir := S "execution/backlog", stem := S "TSK-200" },
            meta := { id := some (.str (S "TSK-200")),
                      title := some (.str (S "Implement")),
                      status := some (.str (S "DRAFT")),
                      parent_uc := some (.str (S "UC-100")) },
            body_snippet := [] }) :=
  blocked_by_parent_spec _ (fun _ => true) (S "TSK-200") _
    (by decide) (by decide) (by decide)

/-- A successful lookup means the id is one of the index keys. -/
theorem mem_keys_of_lookup {idx : Snapshot} {c : Str} {e : Entry}
    (h : lookup idx c = some e) : c ∈ idx.map Prod.fst := by
  induction idx with
  | nil => simp [lookup] at h
  | cons y rest ih =>
    rcases y with ⟨k', v⟩
    rw [lookup] at h
    split at h
    · next hk => exact hk ▸ List.mem_cons_self _ _
    · exact List.mem_cons_of_mem _ (ih h)

/-- Visiting an unvisited index key strictly shrinks the measure. -/
theorem remaining_lt {idx : Snapshot} {c : Str} {visited : List Str}
    (hk : c ∈ idx.map Prod.fst) (hv : ¬ c ∈ visited) :
    remaining idx (c :: visited) < remaining idx visited := by
  unfold remaining
  generalize idx.map Prod.fst = keys at hk
  induction keys with
  | nil => cases hk
  | cons a keys ih =>
    rw [List.filter_cons, List.filter_cons]
    by_cases hac : a = c
    · subst hac
      have h1 : (decide (¬ a ∈ a :: visited)) = false := by simp
      have h2 : (decide (¬ a ∈ visited)) = true := by simpa using hv
      have hle : ((keys.filter (fun k => decide (¬ k ∈ a :: visited)))).length ≤
          ((keys.filter (fun k => decide (¬ k ∈ visited)))).length := by
        rw [← List.countP_eq_length_filter, ← List.countP_eq_length_filter]
        apply List.countP_mono_left
        intro x _ hx
        simp only [decide_eq_true_eq, List.mem_cons, not_or] at hx ⊢
        exact hx.2
      simp only [h1, h2, Bool.false_eq_true, if_false, if_true, List.length_cons]
      omega
    · have hk' : c ∈ keys := by
        rcases List.mem_cons.mp hk with h | h
        · exact absurd h.symm hac
        · exact h
      by_cases hav : a ∈ visited
      · have h1 : (decide (¬ a ∈ c :: visited)) = false := by simp [hav]
        have h2 : (decide (¬ a ∈ visited)) = false := by simp [hav]
        rw [h1, h2]
        exact ih hk'
      · have h1 : (decide (¬ a ∈ c :: visited)) = true := by simp [hav, hac]
        have h2 : (decide (¬ a ∈ visited)) = true := by simp [hav]
        simp only [h1, h2, if_true, List.length_cons]
        simpa using Nat.succ_lt_succ (ih hk')

/-- Any two fuel budgets above the measure yield the same trace: the walk
terminates on its own before the fuel runs out. -/
theorem traceAux_stable (idx : Snapshot) :
    ∀ (m : Nat) (cur : Option Str) (visited : List Str) (f₁ f₂ : Nat),
      remaining idx visited = m → m < f₁ → m < f₂ →
      traceAux idx f₁ cur visited = traceAux idx f₂ cur visited := by
  intro m
  induction m using Nat.strong_induction_on with
  | _ m ih =>
    intro cur visited f₁ f₂ hm h1 h2
    obtain ⟨fa, rfl⟩ : ∃ fa, f₁ = fa + 1 := ⟨f₁ - 1, by omega⟩
    obtain ⟨fb, rfl⟩ : ∃ fb, f₂ = fb + 1 := ⟨f₂ - 1, by omega⟩
    match cur with
    | none => rfl
    | some c =>
      rw [traceAux, traceAux]
      by_cases hcc : c = []
      · simp [hcc]
      · by_cases hcv : c ∈ visited
        · simp [hcc, hcv]
        · simp only [if_neg hcc, if_neg hcv]
          rcases hl : lookup idx c with _ | e <;> simp only [hl]
          congr 1
          have hlt : remaining idx (c :: visited) < m :=
            hm ▸ remaining_lt (mem_keys_of_lookup hl) hcv
          exact ih _ hlt _ _ fa fb rfl (by omega) (by omega)

/-- Structural invariants of the trace walk: every element of the chain was
found by a successful, fresh lookup; ids never repeat; each node is
followed by the node named by its first truthy parent field; and the chain
starts at the requested id. -/
theorem traceAux_spec (idx : Snapshot) :
    ∀ (fuel : Nat) (cur : Option Str) (visited : List Str),
      (∀ p ∈ traceAux idx fuel cur visited,
        lookup idx p.1 = some p.2 ∧ ¬ p.1 ∈ visited) ∧
      ((traceAux idx fuel cur visited).map Prod.fst).Nodup ∧
      List.Chain' (fun a b => firstParent a.2.meta = some b.1 ∧ lookup idx b.1 = some b.2)
        (traceAux idx fuel cur visited) ∧
      (∀ p, (traceAux idx fuel cur visited).head? = some p → cur = some p.1) := by
  intro fuel
  induction fuel with
  | zero => intro cur visited; simp [traceAux]
  | succ fuel ih =>
    intro cur visited
    match cur with
    | none => simp [traceAux]
    | some c =>
      rw [traceAux]
      by_cases hcc : c = []
      · simp [hcc]
      · by_cases hcv : c ∈ visited
        · simp [hcc, hcv]
        · simp only [if_neg hcc, if_neg hcv]
          rcases hl : lookup idx c with _ | e <;> simp only [hl]
          · simp
          · obtain ⟨ihm, ihn, ihc, ihh⟩ := ih (firstParent e.meta) (c :: visited)
            refine ⟨?_, ?_, ?_, ?_⟩
            · intro p hp
              rcases List.mem_cons.mp hp with rfl | hp
              · exact ⟨hl, hcv⟩
              · exact ⟨(ihm p hp).1, fun hx => (ihm p hp).2 (List.mem_cons_of_mem _ hx)⟩
            · rw [List.map_cons]
              refine List.nodup_cons.mpr ⟨?_, ihn⟩
              intro hmem
              rcases List.mem_map.mp hmem with ⟨p, hp, hpc⟩
              exact (ihm p hp).2 (hpc ▸ List.mem_cons_self _ _)
            · refine List.chain'_cons'.mpr ⟨?_, ihc⟩
              intro b hb
              exact ⟨ihh b hb, (ihm b (List.mem_of_mem_head? hb)).1⟩
            · intro p hp
              simp only [List.head?_cons, Option.some.injEq] at hp
              rw [← hp]

/-- With no ids visited yet, the measure is the full index size. -/
theorem remaining_nil (idx : Snapshot) : remaining idx [] = idx.length := by
  unfold remaining
  simp

/-- **C8.** `get_trace_path` terminates on every snapshot and every start,
cycles in the parent references included: its loop is insensitive to any
fuel beyond `|index| + 1`; the chain repeats no id; each successive node is
the one named by the first truthy parent field (priority `parent_uc`,
`parent_feat`, `parent_goal`, `origin`) of its predecessor and resolves in
the index; the chain starts at the requested id (leaf-to-root order), and
the walk yields nothing exactly when the current id is falsy, already
visited, or unresolved. -/
theorem get_trace_path_spec :
    (∀ (idx : Snapshot) (aid : Str) (k : Nat),
      traceAux idx (idx.length + 1 + k) (some aid) [] =
        traceAux idx (idx.length + 1) (some aid) []) ∧
    (∀ (idx : Snapshot) (aid : Str),
      ((traceAux idx (idx.length + 1) (some aid) []).map Prod.fst).Nodup ∧
      List.Chain' (fun a b => firstParent a.2.meta = some b.1 ∧ lookup idx b.1 = some b.2)
        (traceAux idx (idx.length + 1) (some aid) []) ∧
      (∀ p ∈ traceAux idx (idx.length + 1) (some aid) [],
        lookup idx p.1 = some p.2) ∧
      (∀ p, (traceAux idx (idx.length + 1) (some aid) []).head? = some p → p.1 = aid) ∧
      get_trace_path idx aid =
        (traceAux idx (idx.length + 1) (some aid) []).map Prod.snd) ∧
    (∀ (idx : Snapshot) (pid : Str) (visited : List Str) (fuel : Nat),
      traceAux idx (fuel + 1) (some pid) visited = [] ↔
        (pid = [] ∨ pid ∈ visited ∨ lookup idx pid = none)) := by
  refine ⟨?_, ?_, ?_⟩
  · intro idx aid k
    exact traceAux_stable idx idx.length (some aid) [] _ _
      (remaining_nil idx) (by omega) (by omega)
  · intro idx aid
    obtain ⟨hm, hn, hc, hh⟩ := traceAux_spec idx (idx.length + 1) (some aid) []
    refine ⟨hn, hc, fun p hp => (hm p hp).1, fun p hp => ?_, rfl⟩
    exact (Option.some.inj (hh p hp)).symm
  · intro idx pid visited fuel
    rw [traceAux]
    by_cases h1 : pid = []
    · simp [h1]
    · by_cases h2 : pid ∈ visited
      · simp [h1, h2]
      · simp only [if_neg h1, if_neg h2]
        rcases hl : lookup idx pid with _ | e <;> simp [hl, h1, h2]

/-- Witness for C8: on a concrete two-node chain, every trace element was
found by a successful lookup. -/
theorem get_trace_path_spec_witness :
    lookup [(S "TSK-001", c8task), (S "UC-001", c8uc)] (S "TSK-001") = some c8task :=
  (get_trace_path_spec.2.1 [(S "TSK-001", c8task), (S "UC-001", c8uc)]
      (S "TSK-001")).2.2.1 (S "TSK-001", c8task) (by decide)

/-- Unpacking `idWF`. -/
theorem idWF_spec {s : Str} (h : idWF s = true) :
    s ≠ [] ∧ ∀ c ∈ s,
      (¬ c = ',') ∧ (c == '[') = false ∧ (c == ']') = false ∧ isWS c = false := by
  unfold idWF at h
  rw [Bool.and_eq_true, List.all_eq_true] at h
  obtain ⟨h1, h2⟩ := h
  constructor
  · intro hs
    subst hs
    simp at h1
  · intro c hc
    have h3 := h2 c hc
    simp only [Bool.and_eq_true, Bool.not_eq_true'] at h3
    obtain ⟨⟨⟨hcomma, hbr1⟩, hbr2⟩, hws⟩ := h3
    exact ⟨by simpa using hcomma, hbr1, hbr2, hws⟩

/-- A comma-free string splits into itself. -/
theorem splitComma_no_comma : ∀ {s : Str}, (∀ c ∈ s, ¬ c = ',') → splitComma s = [s] := by
  intro s
  induction s with
  | nil => intro _; rfl
  | cons c cs ih =>
    intro h
    rw [splitComma, if_neg (h c (List.mem_cons_self _ _)),
      ih (fun c' hc' => h c' (List.mem_cons_of_mem _ hc'))]

/-- Splitting at the first comma after a comma-free chunk. -/
theorem splitComma_append_comma :
    ∀ {xs : Str} (ys : Str), (∀ c ∈ xs, ¬ c = ',') →
      splitComma (xs ++ ',' :: ys) = xs :: splitComma ys := by
  intro xs
  induction xs with
  | nil => intro ys _; rw [List.nil_append, splitComma, if_pos rfl]
  | cons a xs ih =>
    intro ys h
    rw [List.cons_append, splitComma, if_neg (h a (List.mem_cons_self _ _)),
      ih ys (fun c' hc' => h c' (List.mem_cons_of_mem _ hc'))]

/-- `dropWhile` is the identity when the predicate holds nowhere. -/
theorem dropWhile_all_false {p : Char → Bool} :
    ∀ {s : Str}, (∀ c ∈ s, p c = false) → s.dropWhile p = s := by
  intro s h
  cases s with
  | nil => rfl
  | cons c cs =>
    rw [List.dropWhile_cons, h c (List.mem_cons_self _ _)]
    simp

/-- `strip()` is the identity on whitespace-free strings. -/
theorem pyStripWS_all {s : Str} (h : ∀ c ∈ s, isWS c = false) : pyStripWS s = s := by
  unfold pyStripWS
  rw [dropWhile_all_false h,
    dropWhile_all_false (fun c hc => h c (List.mem_reverse.mp hc)),
    List.reverse_reverse]

/-- `strip()` removes exactly the leading space the renderer inserted. -/
theorem pyStripWS_space {s : Str} (h : ∀ c ∈ s, isWS c = false) :
    pyStripWS (' ' :: s) = s := by
  unfold pyStripWS
  rw [List.dropWhile_cons]
  have hsp : isWS ' ' = true := rfl
  rw [hsp, if_pos rfl, dropWhile_all_false h,
    dropWhile_all_false (fun c hc => h c (List.mem_reverse.mp hc)),
    List.reverse_reverse]

/-- The one-element equation of `joinSep`. -/
theorem joinSep_one (sep x : Str) : joinSep sep [x] = x := rfl

/-- The two-or-more-element equation of `joinSep`. -/
theorem joinSep_cons₂ (sep x y : Str) (rest : List Str) :
    joinSep sep (x :: y :: rest) = x ++ sep ++ joinSep sep (y :: rest) := rfl

/-- A character property holding on the separator and on every id holds on
the whole joined string. -/
theorem joinSep_all {sep : Str} {p : Char → Bool}
    (hsep : ∀ c ∈ sep, p c = true) :
    ∀ {ids : List Str}, (∀ id ∈ ids, ∀ c ∈ id, p c = true) →
      ∀ c ∈ joinSep sep ids, p c = true := by
  intro ids
  induction ids with
  | nil => intro _ c hc; simp [joinSep] at hc
  | cons x rest ih =>
    cases rest with
    | nil =>
      intro hids c hc
      exact hids x (List.mem_cons_self _ _) c (by simpa [joinSep] using hc)
    | cons y rest' =>
      intro hids c hc
      rw [joinSep_cons₂] at hc
      rcases List.mem_append.mp hc with hc | hc
      · rcases List.mem_append.mp hc with hc | hc
        · exact hids x (List.mem_cons_self _ _) c hc
        · exact hsep c hc
      · exact ih (fun id hid => hids id (List.mem_cons_of_mem _ hid)) c hc

/-- Joining a nonempty first id yields a nonempty string. -/
theorem joinSep_ne_nil {sep : Str} {x : Str} {rest : List Str} (hx : ¬ x = []) :
    ¬ joinSep sep (x :: rest) = [] := by
  cases rest with
  | nil => simpa [joinSep] using hx
  | cons y r => simp [joinSep, hx]

/-- Splitting the rendered body recovers the first id, then each further id
with the single space the separator left in front of it. -/
theorem splitComma_joinSep :
    ∀ (ids : List Str) (x : Str),
      (∀ c ∈ x, ¬ c = ',') → (∀ id ∈ ids, idWF id = true) →
      splitComma (joinSep (S ", ") (x :: ids)) =
        x :: ids.map (fun id => ' ' :: id) := by
  intro ids
  induction ids with
  | nil =>
    intro x hx _
    rw [joinSep_one, splitComma_no_comma hx]
    rfl
  | cons y rest ih =>
    intro x hx hids
    have hjoin : joinSep (S ", ") (x :: y :: rest) =
        x ++ ',' :: ' ' :: joinSep (S ", ") (y :: rest) := by
      rw [joinSep_cons₂, List.append_assoc]
      rfl
    rw [hjoin, splitComma_append_comma _ hx]
    congr 1
    rw [splitComma, if_neg (by decide),
      ih y (fun c hc => (idWF_spec (hids y (List.mem_cons_self _ _))).2 c hc |>.1)
        (fun id hid => hids id (List.mem_cons_of_mem _ hid))]
    rfl

/-- Stripping the surrounding brackets of the rendered form leaves exactly
the joined body. -/
theorem stripSquare_render {ids : List Str} (h : ∀ id ∈ ids, idWF id = true) :
    stripSquare (renderDeps ids) = joinSep (S ", ") ids := by
  cases ids with
  | nil => rfl
  | cons x rest =>
    have hxwf := idWF_spec (h x (List.mem_cons_self _ _))
    have hall : ∀ c ∈ joinSep (S ", ") (x :: rest), isBrChar c = false := by
      have := @joinSep_all (S ", ") (fun c => !isBrChar c)
        (by decide) _
        (fun id hid c hc => by
          obtain ⟨-, h2⟩ := idWF_spec (h id hid)
          obtain ⟨-, hb1, hb2, -⟩ := h2 c hc
          simp [isBrChar, hb1, hb2])
      intro c hc
      simpa using this c hc
    rcases hJ : joinSep (S ", ") (x :: rest) with _ | ⟨c0, t0⟩
    · exact absurd hJ (joinSep_ne_nil hxwf.1)
    · have hrender : renderDeps (x :: rest) = '[' :: ((c0 :: t0) ++ [']']) := by
        unfold renderDeps
        rw [hJ]
        rfl
      have hc0 : isBrChar c0 = false := hall c0 (hJ ▸ List.mem_cons_self _ _)
      have e1 : List.dropWhile isBrChar ('[' :: ((c0 :: t0) ++ [']'])) =
          (c0 :: t0) ++ [']'] := by
        rw [List.dropWhile_cons, show isBrChar '[' = true from rfl, if_pos rfl,
          List.cons_append, List.dropWhile_cons, hc0]
        simp
      have e2 : ((c0 :: t0) ++ [']']).reverse = ']' :: (c0 :: t0).reverse := by simp
      have e3 : List.dropWhile isBrChar (']' :: (c0 :: t0).reverse) =
          (c0 :: t0).reverse := by
        rw [List.dropWhile_cons, show isBrChar ']' = true from rfl, if_pos rfl]
        exact dropWhile_all_false (fun c hc => hall c (hJ ▸ List.mem_reverse.mp hc))
      unfold stripSquare
      rw [hrender, e1, e2, e3, List.reverse_reverse]

/-- Round trip: parsing the rendered string form of a well-formed id list
recovers exactly that list (the normalization of the list form). -/
theorem normalizeDeps_render {ids : List Str} (h : ∀ id ∈ ids, idWF id = true) :
    normalizeDeps (some (.str (renderDeps ids))) = ids := by
  show ((splitComma (stripSquare (renderDeps ids))).map pyStripWS).filter
      (fun d => !d.isEmpty) = ids
  rw [stripSquare_render h]
  cases ids with
  | nil => rfl
  | cons x rest =>
    rw [splitComma_joinSep rest x
      (fun c hc => ((idWF_spec (h x (List.mem_cons_self _ _))).2 c hc).1)
      (fun id hid => h id (List.mem_cons_of_mem _ hid))]
    rw [List.map_cons,
      pyStripWS_all (fun c hc => ((idWF_spec (h x (List.mem_cons_self _ _))).2 c hc).2.2.2),
      List.map_map]
    have hmap : rest.map (pyStripWS ∘ fun id => ' ' :: id) = rest := by
      have hcongr : ∀ id ∈ rest, (pyStripWS ∘ fun id => ' ' :: id) id = id :=
        fun id hid => pyStripWS_space
          (fun c hc => ((idWF_spec (h id (List.mem_cons_of_mem _ hid))).2 c hc).2.2.2)
      rw [List.map_congr_left hcongr]
      simp
    rw [hmap]
    rw [List.filter_eq_self.mpr]
    intro d hd
    have hne : d ≠ [] := (idWF_spec (h d hd)).1
    simpa using hne

/-- `PairEquiv` is reflexive. -/
theorem PairEquiv_refl (x : Str × Entry) : PairEquiv x x :=
  ⟨rfl, rfl, rfl, ⟨rfl, rfl, rfl, rfl, rfl, rfl, rfl, rfl, rfl, rfl, rfl⟩⟩

/-- `SnapEquiv` is reflexive. -/
theorem SnapEquiv_refl (ns : Snapshot) : SnapEquiv ns ns :=
  List.forall₂_same.mpr (fun x _ => PairEquiv_refl x)

/-- `meta.get` agrees on every field name other than `dependencies`. -/
theorem metaGet_equiv {m₁ m₂ : Meta} (h : MetaEquiv m₁ m₂) (name : Str)
    (hname : ¬ name = S "dependencies") : metaGet m₁ name = metaGet m₂ name := by
  obtain ⟨e1, e2, e3, e4, e5, e6, e7, e8, e9, e10, -⟩ := h
  unfold metaGet
  by_cases h1 : name = S "id"
  · simp only [if_pos h1]; exact e1
  simp only [if_neg h1]
  by_cases h2 : name = S "title"
  · simp only [if_pos h2]; exact e2
  simp only [if_neg h2]
  by_cases h3 : name = S "status"
  · simp only [if_pos h3]; exact e3
  simp only [if_neg h3]
  by_cases h4 : name = S "parent_goal"
  · simp only [if_pos h4]; exact e4
  simp only [if_neg h4]
  by_cases h5 : name = S "parent_feat"
  · simp only [if_pos h5]; exact e5
  simp only [if_neg h5]
  by_cases h6 : name = S "parent_uc"
  · simp only [if_pos h6]; exact e6
  simp only [if_neg h6]
  by_cases h7 : name = S "origin"
  · simp only [if_pos h7]; exact e7
  simp only [if_neg h7]
  by_cases h8 : name = S "dependencies"
  · exact absurd h8 hname
  simp only [if_neg h8]
  by_cases h9 : name = S "hypothesis"
  · simp only [if_pos h9]; exact e8
  simp only [if_neg h9]
  by_cases h10 : name = S "verdict"
  · simp only [if_pos h10]; exact e9
  simp only [if_neg h10]
  by_cases h11 : name = S "research_required"
  · simp only [if_pos h11]; exact e10
  simp only [if_neg h11]

/-- Lookup respects snapshot equivalence. -/
theorem lookup_equiv {ns₁ ns₂ : Snapshot} (h : SnapEquiv ns₁ ns₂) :
    ∀ k, OptEntryEquiv (lookup ns₁ k) (lookup ns₂ k) := by
  induction h with
  | nil => intro k; exact trivial
  | @cons a b l₁ l₂ hab hl ih =>
    intro k
    rcases a with ⟨k₁, e₁⟩
    rcases b with ⟨k₂, e₂⟩
    have hk : k₁ = k₂ := hab.key_eq
    subst hk
    rw [lookup, lookup]
    by_cases hc : k₁ = k
    · rw [if_pos hc, if_pos hc]
      exact ⟨hab.type_eq, hab.path_eq, hab.meta_eq⟩
    · rw [if_neg hc, if_neg hc]
      exact ih k

/-- Key membership respects snapshot equivalence. -/
theorem hasKey_equiv {ns₁ ns₂ : Snapshot} (h : SnapEquiv ns₁ ns₂) (k : Str) :
    hasKey ns₁ k = hasKey ns₂ k := by
  have hle := lookup_equiv h k
  unfold hasKey
  rcases h1 : lookup ns₁ k with _ | e₁ <;> rcases h2 : lookup ns₂ k with _ | e₂ <;>
    rw [h1, h2] at hle <;>
    first
      | rfl
      | exact False.elim hle

/-- Mapping related lists with functions that agree on related elements. -/
theorem map_eq_of_forall₂ {α β γ : Type} {R : α → β → Prop} {f : α → γ} {g : β → γ}
    (hfg : ∀ x y, R x y → f x = g y) :
    ∀ {l₁ : List α} {l₂ : List β}, List.Forall₂ R l₁ l₂ → l₁.map f = l₂.map g := by
  intro l₁ l₂ h
  induction h with
  | nil => rfl
  | cons hab hl ih => simp only [List.map_cons, hfg _ _ hab, ih]

/-- Equivalent snapshots have identical key lists. -/
theorem keys_equiv {ns₁ ns₂ : Snapshot} (h : SnapEquiv ns₁ ns₂) :
    ns₁.map Prod.fst = ns₂.map Prod.fst :=
  map_eq_of_forall₂ (fun _ _ hxy => hxy.key_eq) h

/-- Equivalent snapshots build identical dependency graphs. -/
theorem depGraph_equiv {ns₁ ns₂ : Snapshot} (h : SnapEquiv ns₁ ns₂) :
    depGraph ns₁ = depGraph ns₂ := by
  unfold depGraph
  exact map_eq_of_forall₂
    (fun x y hxy => by rw [hxy.key_eq, hxy.meta_eq.deps_eq]) h

/-- Equivalent snapshots choose identical cycle fuel. -/
theorem cycleFuel_equiv {ns₁ ns₂ : Snapshot} (h : SnapEquiv ns₁ ns₂) :
    cycleFuel ns₁ = cycleFuel ns₂ := by
  unfold cycleFuel
  rw [depGraph_equiv h, List.Forall₂.length_eq h]

/-- The last elements of two pairwise-related lists are related. -/
theorem getLast?_rel {α β : Type} {R : α → β → Prop} :
    ∀ {l₁ : List α} {l₂ : List β}, List.Forall₂ R l₁ l₂ →
      (l₁.getLast? = none ∧ l₂.getLast? = none) ∨
      (∃ a b, l₁.getLast? = some a ∧ l₂.getLast? = some b ∧ R a b) := by
  intro l₁ l₂ h
  induction h with
  | nil => exact Or.inl ⟨rfl, rfl⟩
  | @cons a b l₁ l₂ hab hl ih =>
    cases hl with
    | nil => exact Or.inr ⟨a, b, rfl, rfl, hab⟩
    | @cons a' b' l₁' l₂' hab' hl' =>
      rcases ih with ⟨h1, -⟩ | ⟨x', y', h1, h2, hr⟩
      · simp at h1
      · exact Or.inr ⟨x', y',
          by rw [List.getLast?_cons_cons]; exact h1,
          by rw [List.getLast?_cons_cons]; exact h2, hr⟩

/-- The W3 block yields identical output on related stale entries. -/
theorem w3Errs_equiv {fb : Str → Bool} {o₁ o₂ : Option (Str × Entry)}
    (h : (o₁ = none ∧ o₂ = none) ∨
      (∃ a b, o₁ = some a ∧ o₂ = some b ∧ PairEquiv a b)) :
    w3Errs fb o₁ = w3Errs fb o₂ := by
  rcases h with ⟨rfl, rfl⟩ | ⟨a, b, rfl, rfl, hab⟩
  · rfl
  · rcases a with ⟨lid₁, le₁⟩
    rcases b with ⟨lid₂, le₂⟩
    have hk : lid₁ = lid₂ := hab.key_eq
    have hty : le₁.type = le₂.type := hab.type_eq
    have hpath : le₁.path = le₂.path := hab.path_eq
    have hst : le₁.meta.status = le₂.meta.status := hab.meta_eq.status_eq
    subst hk
    rw [w3Errs, w3Errs, hty, hpath, hst]

/-- The G9 loop yields identical output over a shared graph on equivalent
snapshots and related stale entries. -/
theorem g9Loop_equiv {ns₁ ns₂ : Snapshot} {graph : List (Str × List Str)}
    {fuel : Nat} {fb : Str → Bool} {l₁ l₂ : Option (Str × Entry)}
    (h : SnapEquiv ns₁ ns₂)
    (hl : (l₁ = none ∧ l₂ = none) ∨
      (∃ a b, l₁ = some a ∧ l₂ = some b ∧ PairEquiv a b)) :
    ∀ (ks visited : List Str),
      g9Loop ns₁ graph fuel fb l₁ ks visited =
        g9Loop ns₂ graph fuel fb l₂ ks visited := by
  intro ks
  induction ks with
  | nil => intro visited; rfl
  | cons k ks ih =>
    intro visited
    rw [g9Loop, g9Loop]
    have hw3 := @w3Errs_equiv fb _ _ hl
    by_cases hk : k ∈ visited
    · rw [if_pos hk, if_pos hk, hw3, ih]
    · rw [if_neg hk, if_neg hk]
      rcases hfc : find_cycle graph fuel k visited [] with ⟨cyc, v', s'⟩
      rcases cyc with _ | c
      · dsimp only
        rw [hw3, ih]
      · dsimp only
        have hle := lookup_equiv h k
        rcases h1 : lookup ns₁ k with _ | e₁
        · rcases h2 : lookup ns₂ k with _ | e₂
          · rfl
          · rw [h1, h2] at hle
            exact False.elim hle
        · rcases h2 : lookup ns₂ k with _ | e₂
          · rw [h1, h2] at hle
            exact False.elim hle
          · rw [h1, h2] at hle
            obtain ⟨hty, hpath, -⟩ := hle
            dsimp only
            rw [hty, hpath]

/-- The whole G9-plus-W3 section yields identical output on equivalent
snapshots. -/
theorem g9w3_equiv {ns₁ ns₂ : Snapshot} (h : SnapEquiv ns₁ ns₂) (fb : Str → Bool) :
    g9w3 ns₁ fb = g9w3 ns₂ fb := by
  unfold g9w3
  rw [depGraph_equiv h, cycleFuel_equiv h, keys_equiv h]
  exact g9Loop_equiv h (getLast?_rel h) _ _

/-- No parent-reference field name is the dependencies field name. -/
theorem parent_fields_not_deps : ∀ pf ∈ PARENT_FIELDS, ¬ pf = S "dependencies" := by
  decide

/-- The G4 check agrees on equivalent pairs. -/
theorem dupCheck_equiv {x y : Str × Entry} (hxy : PairEquiv x y) :
    dupCheck x = dupCheck y := by
  unfold dupCheck
  rw [hxy.key_eq, hxy.path_eq, hxy.type_eq]

/-- The G3 check agrees on equivalent pairs over equivalent snapshots. -/
theorem orphanParentErrs_equiv {ns₁ ns₂ : Snapshot} {x y : Str × Entry}
    (h : SnapEquiv ns₁ ns₂) (hxy : PairEquiv x y) :
    orphanParentErrs ns₁ x = orphanParentErrs ns₂ y := by
  unfold orphanParentErrs
  apply List.filterMap_congr
  intro pf hpf
  rw [metaGet_equiv hxy.meta_eq pf (parent_fields_not_deps pf hpf)]
  rcases metaGet y.2.meta pf with _ | v
  · rfl
  · dsimp only
    rw [hasKey_equiv h (pyStr v), hxy.key_eq, hxy.type_eq, hxy.path_eq]

/-- The G8 check agrees on equivalent pairs over equivalent snapshots. -/
theorem depErrs_equiv {ns₁ ns₂ : Snapshot} {x y : Str × Entry}
    (h : SnapEquiv ns₁ ns₂) (hxy : PairEquiv x y) :
    depErrs ns₁ x = depErrs ns₂ y := by
  unfold depErrs
  rw [hxy.meta_eq.deps_eq]
  apply List.filterMap_congr
  intro d _
  have hle := lookup_equiv h d
  rcases h1 : lookup ns₁ d with _ | de₁
  · rcases h2 : lookup ns₂ d with _ | de₂
    · dsimp only
      rw [hxy.key_eq, hxy.type_eq, hxy.path_eq]
    · rw [h1, h2] at hle
      exact False.elim hle
  · rcases h2 : lookup ns₂ d with _ | de₂
    · rw [h1, h2] at hle
      exact False.elim hle
    · rw [h1, h2] at hle
      obtain ⟨-, -, hm⟩ := hle
      dsimp only
      rw [hxy.meta_eq.status_eq, hm.status_eq, hxy.key_eq, hxy.type_eq, hxy.path_eq]

/-- The G1 check agrees on equivalent pairs over equivalent snapshots. -/
theorem taskGateErrs_equiv {ns₁ ns₂ : Snapshot} {x y : Str × Entry}
    (h : SnapEquiv ns₁ ns₂) (hxy : PairEquiv x y) :
    taskGateErrs ns₁ x = taskGateErrs ns₂ y := by
  unfold taskGateErrs
  rw [hxy.type_eq, hxy.meta_eq.parent_uc_eq, hxy.key_eq, hxy.path_eq]
  by_cases hT : y.2.type = AType.Task
  · rw [if_pos hT, if_pos hT]
    dsimp only
    have hle := lookup_equiv h (pyStrD y.2.meta.parent_uc [])
    rcases h1 : lookup ns₁ (pyStrD y.2.meta.parent_uc []) with _ | p₁
    · rcases h2 : lookup ns₂ (pyStrD y.2.meta.parent_uc []) with _ | p₂
      · rfl
      · rw [h1, h2] at hle
        exact False.elim hle
    · rcases h2 : lookup ns₂ (pyStrD y.2.meta.parent_uc []) with _ | p₂
      · rw [h1, h2] at hle
        exact False.elim hle
      · rw [h1, h2] at hle
        obtain ⟨-, -, hm⟩ := hle
        dsimp only
        rw [hm.status_eq]
  · rw [if_neg hT, if_neg hT]

/-- The G2 research scan has the same emptiness over equivalent snapshots. -/
theorem researchFilter_equiv {ns₁ ns₂ : Snapshot} (h : SnapEquiv ns₁ ns₂) (fg : Str) :
    (ns₁.filter fun y => y.2.type == AType.Research &&
      (pyStrD y.2.meta.parent_goal [] == fg) && verdictOk y.2.meta.verdict).isEmpty =
    (ns₂.filter fun y => y.2.type == AType.Research &&
      (pyStrD y.2.meta.parent_goal [] == fg) && verdictOk y.2.meta.verdict).isEmpty := by
  induction h with
  | nil => rfl
  | @cons a b l₁ l₂ hab hl ih =>
    rw [List.filter_cons, List.filter_cons]
    have heq : (a.2.type == AType.Research && (pyStrD a.2.meta.parent_goal [] == fg) &&
        verdictOk a.2.meta.verdict) =
        (b.2.type == AType.Research && (pyStrD b.2.meta.parent_goal [] == fg) &&
        verdictOk b.2.meta.verdict) := by
      rw [hab.type_eq, hab.meta_eq.parent_goal_eq, hab.meta_eq.verdict_eq]
    rw [heq]
    cases hb : (b.2.type == AType.Research && (pyStrD b.2.meta.parent_goal [] == fg) &&
        verdictOk b.2.meta.verdict)
    · simp only [hb, Bool.false_eq_true, if_false]
      exact ih
    · simp only [hb, if_true]
      rfl

/-- The G2 check agrees on equivalent pairs over equivalent snapshots. -/
theorem ucGateErrs_equiv {ns₁ ns₂ : Snapshot} {x y : Str × Entry}
    (h : SnapEquiv ns₁ ns₂) (hxy : PairEquiv x y) :
    ucGateErrs ns₁ x = ucGateErrs ns₂ y := by
  unfold ucGateErrs
  rw [hxy.type_eq, hxy.meta_eq.parent_feat_eq, hxy.key_eq, hxy.path_eq]
  by_cases hT : y.2.type = AType.UseCase
  · rw [if_pos hT, if_pos hT]
    dsimp only
    have hle := lookup_equiv h (pyStrD y.2.meta.parent_feat [])
    rcases h1 : lookup ns₁ (pyStrD y.2.meta.parent_feat []) with _ | f₁
    · rcases h2 : lookup ns₂ (pyStrD y.2.meta.parent_feat []) with _ | f₂
      · rfl
      · rw [h1, h2] at hle
        exact False.elim hle
    · rcases h2 : lookup ns₂ (pyStrD y.2.meta.parent_feat []) with _ | f₂
      · rw [h1, h2] at hle
        exact False.elim hle
      · rw [h1, h2] at hle
        obtain ⟨-, -, hm⟩ := hle
        dsimp only
        rw [hm.research_required_eq, hm.parent_goal_eq,
          researchFilter_equiv h (pyStrD f₂.meta.parent_goal [])]
  · rw [if_neg hT, if_neg hT]

/-- One node's main-loop output, MISSING_FIELD errors dropped, agrees on
equivalent pairs over equivalent snapshots. -/
theorem nodeErrs_filter_equiv {ns₁ ns₂ : Snapshot} {x y : Str × Entry}
    (h : SnapEquiv ns₁ ns₂) (hxy : PairEquiv x y) :
    (nodeErrs ns₁ x).filter notMissing = (nodeErrs ns₂ y).filter notMissing := by
  unfold nodeErrs
  simp only [List.filter_append]
  rw [orphanParentErrs_equiv h hxy, depErrs_equiv h hxy, taskGateErrs_equiv h hxy,
    ucGateErrs_equiv h hxy]
  have e1 : (missingFieldErrs x).filter notMissing = [] :=
    List.filter_eq_nil_iff.mpr fun e he => by
      simp [notMissing, (missing_mem he).2]
  have e2 : (missingFieldErrs y).filter notMissing = [] :=
    List.filter_eq_nil_iff.mpr fun e he => by
      simp [notMissing, (missing_mem he).2]
  rw [e1, e2]

/-- A full validation run, MISSING_FIELD errors dropped, agrees on
equivalent snapshots. -/
theorem validate_filter_equiv {ns₁ ns₂ : Snapshot} (h : SnapEquiv ns₁ ns₂)
    (fb : Str → Bool) :
    (validate ns₁ fb).filter notMissing = (validate ns₂ fb).filter notMissing := by
  unfold validate
  simp only [List.filter_append]
  rw [g9w3_equiv h fb]
  have hdup : (ns₁.map dupCheck).flatten = (ns₂.map dupCheck).flatten := by
    rw [map_eq_of_forall₂ (fun x y hxy => dupCheck_equiv hxy) h]
  have hmain : ((ns₁.map (nodeErrs ns₁)).flatten).filter notMissing =
      ((ns₂.map (nodeErrs ns₂)).flatten).filter notMissing := by
    rw [List.filter_flatten, List.filter_flatten, List.map_map, List.map_map]
    exact congrArg List.flatten
      (map_eq_of_forall₂
        (fun x y hxy => by
          simpa [Function.comp] using nodeErrs_filter_equiv h hxy) h)
  rw [hdup, hmain]

/-- Filtering to ORPHAN and GATE_VIOLATION can be done after dropping
MISSING_FIELD errors. -/
theorem filter_keepOG_of_notMissing (l : List VErr) :
    l.filter keepOG = (l.filter notMissing).filter keepOG := by
  rw [List.filter_filter]
  apply List.filter_congr
  intro e _
  cases he : e.error_type <;> simp [keepOG, notMissing, he]

/-- **C9.** Dependency normalization is representation independent: with a
well-formed id list, swapping one node's `dependencies` between the list
form and the bracketed comma-separated string form leaves the set of
ORPHAN and GATE_VIOLATION findings of a validation run unchanged, and an
absent `dependencies` field behaves exactly like an empty list. -/
theorem deps_representation_equiv :
    (∀ (pre post : Snapshot) (k : Str) (e : Entry) (ids : List Str) (fb : Str → Bool),
      e.meta.dependencies = some (.list ids) → (∀ id ∈ ids, idWF id = true) →
      (validate (pre ++ (k, e) :: post) fb).filter keepOG =
        (validate (pre ++ (k, setDeps e (some (.str (renderDeps ids)))) :: post) fb).filter
          keepOG) ∧
    (∀ (pre post : Snapshot) (k : Str) (e : Entry) (fb : Str → Bool),
      e.meta.dependencies = none →
      (validate (pre ++ (k, e) :: post) fb).filter keepOG =
        (validate (pre ++ (k, setDeps e (some (.list []))) :: post) fb).filter keepOG) := by
  constructor
  · intro pre post k e ids fb hdeps hids
    have hmid : PairEquiv (k, e) (k, setDeps e (some (.str (renderDeps ids)))) := by
      refine ⟨rfl, rfl, rfl, ⟨rfl, rfl, rfl, rfl, rfl, rfl, rfl, rfl, rfl, rfl, ?_⟩⟩
      show normalizeDeps e.meta.dependencies =
        normalizeDeps (some (.str (renderDeps ids)))
      rw [hdeps, normalizeDeps_render hids]
      rfl
    have hsnap : SnapEquiv (pre ++ (k, e) :: post)
        (pre ++ (k, setDeps e (some (.str (renderDeps ids)))) :: post) :=
      List.rel_append (SnapEquiv_refl pre)
        (List.Forall₂.cons hmid (SnapEquiv_refl post))
    rw [filter_keepOG_of_notMissing, validate_filter_equiv hsnap fb,
      ← filter_keepOG_of_notMissing]
  · intro pre post k e fb hdeps
    have hmid : PairEquiv (k, e) (k, setDeps e (some (.list []))) := by
      refine ⟨rfl, rfl, rfl, ⟨rfl, rfl, rfl, rfl, rfl, rfl, rfl, rfl, rfl, rfl, ?_⟩⟩
      show normalizeDeps e.meta.dependencies = normalizeDeps (some (.list []))
      rw [hdeps]
      rfl
    have hsnap : SnapEquiv (pre ++ (k, e) :: post)
        (pre ++ (k, setDeps e (some (.list []))) :: post) :=
      List.rel_append (SnapEquiv_refl pre)
        (List.Forall₂.cons hmid (SnapEquiv_refl post))
    rw [filter_keepOG_of_notMissing, validate_filter_equiv hsnap fb,
      ← filter_keepOG_of_notMissing]

/-- Witness for C9: swapping the one dependency of a concrete UseCase to
the string form "[UC-002]" leaves the ORPHAN and GATE_VIOLATION findings
unchanged. -/
theorem deps_representation_equiv_witness :
    (validate [(S "UC-001", c9entry)] (fun _ => true)).filter keepOG =
      (validate [(S "UC-001",
          setDeps c9entry (some (.str (renderDeps [S "UC-002"]))))]
        (fun _ => true)).filter keepOG :=
  deps_representation_equiv.1 [] [] (S "UC-001") c9entry [S "UC-002"]
    (fun _ => true) rfl (by decide)

/-- DFS trace on the 3-cycle graph, innermost step: from `C` the neighbor
`A` is already on the stack, closing the cycle. -/
theorem fc_step3 (A B C : Str) (m : Nat) :
    fcAux [(A, [B]), (B, [C]), (C, [A])] (m + 1) [A] [C, B, A] [C, B, A] C =
      (some [A, C], [C, B, A], [C, B, A]) := by
  simp [fcAux]

/-- DFS trace on the 3-cycle graph, middle step: from `B` the walk descends
into `C` and extends the cycle found there. -/
theorem fc_step2 (A B C : Str) (m : Nat) (hAC : A ≠ C) (hBC : B ≠ C) :
    fcAux [(A, [B]), (B, [C]), (C, [A])] (m + 1 + 1) [C] [B, A] [B, A] B =
      (some [A, C, B], [C, B, A], [C, B, A]) := by
  have h3 := fc_step3 A B C m
  simp [fcAux, lookupD, insertS, hAC, hBC, Ne.symm hAC, Ne.symm hBC, h3]

/-- DFS trace on the 3-cycle graph, outer step: from `A` the walk descends
into `B` and extends the cycle found there. -/
theorem fc_step1 (A B C : Str) (m : Nat) (hAB : A ≠ B) (hAC : A ≠ C) (hBC : B ≠ C) :
    fcAux [(A, [B]), (B, [C]), (C, [A])] (m + 1 + 1 + 1) [B] [A] [A] A =
      (some [A, C, B, A], [C, B, A], [C, B, A]) := by
  have h2 := fc_step2 A B C m hAC hBC
  simp [fcAux, lookupD, insertS, hAB, Ne.symm hAB, h2]

/-- `find_cycle` started at `A` on the 3-cycle graph returns the cycle in
the source's reversed order. -/
theorem fc_cycle3 (A B C : Str) (m : Nat) (hAB : A ≠ B) (hAC : A ≠ C) (hBC : B ≠ C) :
    find_cycle [(A, [B]), (B, [C]), (C, [A])] (m + 1 + 1 + 1) A [] [] =
      (some [A, C, B, A], [C, B, A], [C, B, A]) := by
  have h1 := fc_step1 A B C m hAB hAC hBC
  simp [find_cycle, lookupD, insertS, h1]

/-- The G4 loop emits no circular-dependency error. -/
theorem dup_filter_cycle (ns : Snapshot) :
    ((ns.map dupCheck).flatten).filter isCycleErr = [] :=
  List.filter_eq_nil_iff.mpr fun e he => by
    rcases List.mem_flatten.mp he with ⟨l, hl, hel⟩
    rcases List.mem_map.mp hl with ⟨x, -, rfl⟩
    simp [isCycleErr, dupCheck_mem hel]

/-- The main per-node loop emits no circular-dependency error. -/
theorem nodeErrs_filter_cycle (ns : Snapshot) :
    ((ns.map (nodeErrs ns)).flatten).filter isCycleErr = [] :=
  List.filter_eq_nil_iff.mpr fun e he => by
    rcases List.mem_flatten.mp he with ⟨l, hl, hel⟩
    rcases List.mem_map.mp hl with ⟨x, -, rfl⟩
    rcases (nodeErrs_mem hel).2 with h | h | h | ⟨h, ⟨r, hdet⟩ | ⟨r, hdet⟩⟩
    · simp [isCycleErr, h]
    · simp [isCycleErr, h]
    · simp [isCycleErr, h]
    · simp [isCycleErr, h, hdet, startsW_circular_cannot]
    · simp [isCycleErr, h, hdet, startsW_circular_parentFeat]

/-- The G9 loop stops at the first cycle: over any graph, fuel, key list
and visited set it emits at most one circular-dependency error. -/
theorem g9Loop_countP_cycle (ns : Snapshot) (graph : List (Str × List Str))
    (fuel : Nat) (fb : Str → Bool) (lastE : Option (Str × Entry)) :
    ∀ (ks visited : List Str),
      (g9Loop ns graph fuel fb lastE ks visited).countP isCycleErr ≤ 1 := by
  intro ks
  induction ks with
  | nil =>
    intro visited
    simp [g9Loop]
  | cons k ks ih =>
    intro visited
    have hw : (w3Errs fb lastE).countP isCycleErr = 0 :=
      List.countP_eq_zero.mpr fun e he => by simp [isCycleErr, w3Errs_mem he]
    simp only [g9Loop]
    split
    · rw [List.countP_append, hw]
      simpa using ih visited
    · rcases hfc : find_cycle graph fuel k visited [] with ⟨cyc, v', s'⟩
      match cyc with
      | some c =>
        rcases lookup ns k with _ | e
        · simp
        · dsimp only
          rw [List.countP_cons, List.countP_nil]
          split <;> omega
      | none =>
        rw [List.countP_append, hw]
        simpa using ih v'

/-- A whole validation run emits at most one circular-dependency error. -/
theorem validate_countP_cycle (ns : Snapshot) (fb : Str → Bool) :
    (validate ns fb).countP isCycleErr ≤ 1 := by
  unfold validate
  rw [List.countP_append, List.countP_append]
  have h1 : ((ns.map dupCheck).flatten).countP isCycleErr = 0 := by
    rw [List.countP_eq_length_filter, dup_filter_cycle]
    rfl
  have h2 : ((ns.map (nodeErrs ns)).flatten).countP isCycleErr = 0 := by
    rw [List.countP_eq_length_filter, nodeErrs_filter_cycle]
    rfl
  rw [h1, h2]
  simpa [g9w3] using g9Loop_countP_cycle ns (depGraph ns) (cycleFuel ns) fb
    ns.getLast? (ns.map fun x => x.1) []

/-- **C2.** The cycle law: on a snapshot whose dependency edges are exactly
A→B, B→C, C→A (with distinct ids), validation reports exactly one
GATE_VIOLATION for a circular dependency, and its message lists all three
ids in cycle order (A -> B -> C -> A); moreover on every snapshot the scan
stops after the first cycle found, so no run ever emits more than one
circular-dependency GATE_VIOLATION. -/
theorem cycle_law :
    (∀ (A B C : Str) (eA eB eC : Entry) (fb : Str → Bool),
      A ≠ B → A ≠ C → B ≠ C →
      normalizeDeps eA.meta.dependencies = [B] →
      normalizeDeps eB.meta.dependencies = [C] →
      normalizeDeps eC.meta.dependencies = [A] →
      (validate [(A, eA), (B, eB), (C, eC)] fb).filter isCycleErr =
        [cycleErr A eA [A, B, C, A]]) ∧
    (∀ (ns : Snapshot) (fb : Str → Bool),
      ((validate ns fb).filter isCycleErr).length ≤ 1) := by
  constructor
  · intro A B C eA eB eC fb hAB hAC hBC hA hB hC
    have hg : depGraph [(A, eA), (B, eB), (C, eC)] =
        [(A, [B]), (B, [C]), (C, [A])] := by
      simp [depGraph, hA, hB, hC]
    have hfuel : cycleFuel [(A, eA), (B, eB), (C, eC)] = 46 + 1 + 1 + 1 := by
      simp [cycleFuel, depGraph, hA, hB, hC]
    have hfc := fc_cycle3 A B C 46 hAB hAC hBC
    have hlk : lookup [(A, eA), (B, eB), (C, eC)] A = some eA := by
      simp [lookup]
    have hloop : g9w3 [(A, eA), (B, eB), (C, eC)] fb =
        [cycleErr A eA [A, B, C, A]] := by
      unfold g9w3
      rw [hg, hfuel]
      show g9Loop [(A, eA), (B, eB), (C, eC)] [(A, [B]), (B, [C]), (C, [A])]
        (46 + 1 + 1 + 1) fb (some (C, eC)) [A, B, C] [] = _
      simp only [g9Loop]
      rw [if_neg (by simp : ¬ (A ∈ ([] : List Str)))]
      rw [hfc]
      dsimp only
      rw [hlk]
      dsimp only
      simp [cycleErr]
    unfold validate
    rw [List.filter_append, List.filter_append, dup_filter_cycle,
      nodeErrs_filter_cycle, hloop]
    simp [cycleErr, isCycleErr, startsW_circular_self]
  · intro ns fb
    rw [← List.countP_eq_length_filter]
    exact validate_countP_cycle ns fb

/-- Witness for C2: a concrete three-node cycle yields exactly the one
predicted circular-dependency GATE_VIOLATION. -/
theorem cycle_law_witness :
    (validate [(S "UC-001", c2eA), (S "UC-002", c2eB), (S "UC-003", c2eC)]
        (fun _ => true)).filter isCycleErr =
      [cycleErr (S "UC-001") c2eA
        [S "UC-001", S "UC-002", S "UC-003", S "UC-001"]] :=
  cycle_law.1 (S "UC-001") (S "UC-002") (S "UC-003") c2eA c2eB c2eC
    (fun _ => true) (by decide) (by decide) (by decide) rfl rfl rfl
